import Mathlib

/-!
The Aura Inn booking server (`src/app.js`): booking intake, pricing, status changes,
the reminder sweep, the admin dashboard figures and room availability; and two
client scripts: the booking form's `calculatePrice` and the `OTAChannelManager`.

A shallow embedding of the request handlers of `src/app.js` that create, mutate
and list booking records, of the scheduled function `sendPreArrivalEmails`, of
the helper `getRoomsWithAvailability`, and of the client methods named above,
and theorems about them.

Modelling conventions.

* A JavaScript number is a rational or `NaN` (`JsNum = Option ℚ`, `none` is `NaN`).
  Arithmetic is exact; the literal `0.2` is the rational `1/5`.
* A request field or record field is a JSON scalar (`JsVal`); an absent key is
  `JsVal.undefined`.
* The runtime's `Date` parser and string-to-number conversion are fields of the
  environment `Env`, next to the clock, the mail configuration and the outcome of
  `mailTransporter.sendMail`.
* A data file is missing, unparsable, or holds a parsed value (`FileState`).
  `fs.writeFileSync` replaces the content of the file and does not throw.
* A handler returns the file system it leaves and the list of its observable
  events (file writes, the HTTP response, mail send attempts) in program order.
* The sweep takes the string `tomorrowStr` it computes from `new Date()` as a
  parameter. Handlers run one at a time: no interleaving at an `await`.
-/

namespace AuraInn

/-! ## JavaScript values -/

/-- A JavaScript number: `none` is `NaN`, `some q` a finite number. -/
abbrev JsNum := Option ℚ

/-- A JSON scalar; `undefined` stands for an absent key. -/
inductive JsVal where
  | undefined
  | null
  | bool (b : Bool)
  | num (x : JsNum)
  | str (s : String)
  deriving DecidableEq

/-- JavaScript truthiness (`ToBoolean`). -/
def JsVal.truthy : JsVal → Bool
  | .undefined => false
  | .null => false
  | .bool b => b
  | .num none => false
  | .num (some q) => decide (q ≠ 0)
  | .str s => decide (s ≠ "")

/-- The operator `a || b`. -/
def jsOr (a b : JsVal) : JsVal := if a.truthy then a else b

/-- The operator `a * b` on numbers. -/
def jsMul : JsNum → JsNum → JsNum
  | some x, some y => some (x * y)
  | _, _ => none

/-- The operator `a + b` on numbers. -/
def jsAdd : JsNum → JsNum → JsNum
  | some x, some y => some (x + y)
  | _, _ => none

/-- The operator `a - b` on numbers. -/
def jsSub : JsNum → JsNum → JsNum
  | some x, some y => some (x - y)
  | _, _ => none

/-- The operator `a / b` on numbers, for a non-zero finite divisor. -/
def jsDiv : JsNum → JsNum → JsNum
  | some x, some y => if y = 0 then none else some (x / y)
  | _, _ => none

/-- The function `Math.ceil`. -/
def mathCeil : JsNum → JsNum
  | some x => some ((⌈x⌉ : ℤ) : ℚ)
  | none => none

/-- The function `Math.max(a, b)`: `NaN` if either argument is `NaN`. -/
def mathMax : JsNum → JsNum → JsNum
  | some x, some y => some (max x y)
  | _, _ => none

/-- The function `Math.round`: the nearest integer, ties towards `+∞`. -/
def mathRound : JsNum → JsNum
  | some x => some ((⌊x + 1 / 2⌋ : ℤ) : ℚ)
  | none => none

/-! ## Environment -/

/-- The five messages the server sends, named after the variables holding
their options in `src/app.js`. -/
inductive MailKind where
  | ownerMailOptions
  | guestAckOptions
  | guestMailOptions
  | cancelMailOptions
  | welcomeMailOptions
  deriving DecidableEq

/-- A message handed to `mailTransporter.sendMail`: its kind, its `to` field (`recipient`) and
the booking it is about (subject and body text are not modelled). -/
structure Mail where
  kind : MailKind
  recipient : JsVal
  bookingId : Int
  deriving DecidableEq

/-- What a handler gets from the runtime and the process environment. -/
structure Env where
  /-- Time value in milliseconds of `new Date(s)` for a string `s`; `none` is an invalid date. -/
  dateParse : String → Option Int
  /-- Numeric value of a string under `==` against a number. -/
  toNumber : String → JsNum
  /-- Value of `Date.now()` when the handler builds the record. -/
  now : Int
  /-- Time value of `new Date()` when the handler builds the record. -/
  createdAt : Int
  /-- Process variable `GMAIL_USER`. -/
  GMAIL_USER : Option String
  /-- Process variable `GMAIL_APP_PASSWORD`. -/
  GMAIL_APP_PASSWORD : Option String
  /-- Whether `mailTransporter.sendMail` resolves (`true`) or throws (`false`). -/
  sendMail : Mail → Bool

/-- An optional process variable as a JavaScript value. -/
def envVar : Option String → JsVal
  | some s => .str s
  | none => .undefined

/-- The test `GMAIL_USER && GMAIL_APP_PASSWORD`. -/
def Env.mailConfigured (env : Env) : Bool :=
  (envVar env.GMAIL_USER).truthy && (envVar env.GMAIL_APP_PASSWORD).truthy

/-- Time value of `new Date(v)`; `none` is an invalid date. -/
def newDate (env : Env) : JsVal → JsNum
  | .undefined => none
  | .null => some 0
  | .bool b => some (if b then 1 else 0)
  | .num none => none
  | .num (some q) =>
      if |q| ≤ 8640000000000000 then
        some (((if 0 ≤ q then ⌊q⌋ else ⌈q⌉ : ℤ) : ℚ))
      else none
  | .str s => (env.dateParse s).map (fun t => (t : ℚ))

/-- Loose equality `id == v` of a numeric booking id with a request value. -/
def looseEq (env : Env) (id : Int) : JsVal → Bool
  | .undefined => false
  | .null => false
  | .bool b => decide (id = if b then 1 else 0)
  | .num x => decide (x = some (id : ℚ))
  | .str s => decide (env.toNumber s = some (id : ℚ))

/-! ## Date-only ISO strings -/

/-- Decimal value of a digit character. -/
def digit? (c : Char) : Option Nat :=
  if 48 ≤ c.toNat ∧ c.toNat ≤ 57 then some (c.toNat - 48) else none

/-- Days from 1970-01-01 to the civil date `y-m-d` (proleptic Gregorian). -/
def daysFromCivil (y m d : Int) : Int :=
  let y1 := if m ≤ 2 then y - 1 else y
  let era := y1 / 400
  let yoe := y1 - era * 400
  let mp := (m + 9) % 12
  let doy := (153 * mp + 2) / 5 + d - 1
  let doe := yoe * 365 + yoe / 4 - yoe / 100 + doy
  era * 146097 + doe - 719468

/-- Number of days of month `m` of year `y`. -/
def daysInMonth (y m : Nat) : Nat :=
  if m = 2 then (if (y % 4 = 0 ∧ y % 100 ≠ 0) ∨ y % 400 = 0 then 29 else 28)
  else if m = 4 ∨ m = 6 ∨ m = 9 ∨ m = 11 then 30 else 31

/-- The date-only form `YYYY-MM-DD`, read as midnight UTC (what an HTML date
input submits); every other string is an invalid date. -/
def isoDate (s : String) : Option Int :=
  match s.toList with
  | [y1, y2, y3, y4, '-', m1, m2, '-', d1, d2] =>
    match digit? y1, digit? y2, digit? y3, digit? y4, digit? m1, digit? m2, digit? d1, digit? d2 with
    | some a, some b, some c, some e, some f, some g, some h, some i =>
      let y := a * 1000 + b * 100 + c * 10 + e
      let m := f * 10 + g
      let d := h * 10 + i
      if 1 ≤ m ∧ m ≤ 12 ∧ 1 ≤ d ∧ d ≤ daysInMonth y m then
        some (daysFromCivil y m d * 86400000)
      else none
    | _, _, _, _, _, _, _, _ => none
  | _ => none

/-- Value of a list of decimal digits read after the prefix value `acc`. -/
def digitsValue (acc : Nat) : List Char → Option Nat
  | [] => some acc
  | c :: cs =>
    match digit? c with
    | some d => digitsValue (acc * 10 + d) cs
    | none => none

/-- Unsigned decimal integer strings, the form in which booking ids travel in
requests; every other string is `NaN`. -/
def decimalToNumber (s : String) : JsNum :=
  match s.toList with
  | [] => none
  | cs => (digitsValue 0 cs).map (fun n => (n : ℚ))

/-! ## Data files -/

/-- A room type of `roomTypes.json`: the fields the booking handler reads. -/
structure RoomType where
  name : String
  price : ℚ
  deriving DecidableEq

/-- A record of `bookings.json`. The id is the number `Date.now()` returned at
creation; the other fields are JSON values, `undefined` when the key is absent. -/
structure Booking where
  id : Int
  name : JsVal
  guestName : JsVal
  phone : JsVal
  email : JsVal
  checkIn : JsVal
  checkOut : JsVal
  adults : JsVal
  children : JsVal
  roomType : JsVal
  breakfast : JsVal
  pickup : JsVal
  flightNo : JsVal
  arrivalTime : JsVal
  specialRequests : JsVal
  totalPrice : JsVal
  utr : JsVal
  status : JsVal
  createdAt : JsVal
  preArrivalEmailSent : JsVal
  deriving DecidableEq

/-- The object of `generalData.json`: the field the booking handler reads. -/
structure GeneralData where
  adminEmail : JsVal
  deriving DecidableEq

/-- What `readJSON` finds on disk for one file name. -/
inductive FileState (α : Type) where
  | missing
  | unparsable
  | parsed (v : α)
  deriving DecidableEq

/-- The data directory: the files the booking handlers read or write. -/
structure FS where
  bookings : FileState (List Booking)
  roomTypes : FileState (List RoomType)
  generalData : FileState GeneralData
  deriving DecidableEq

/-- The helper `readJSON`: `null` (`none`) when the file does not exist or
`JSON.parse` throws, the parsed value otherwise. -/
def readJSON {α : Type} : FileState α → Option α
  | .missing => none
  | .unparsable => none
  | .parsed v => some v

/-- The helper `writeJSON('bookings', data)`: the file now holds `data`; the
result is `true`. -/
def writeJSON (fs : FS) (data : List Booking) : Bool × FS :=
  (true, { fs with bookings := .parsed data })

/-- The loader `getBookings`: `readJSON('bookings') || []`. -/
def getBookings (fs : FS) : List Booking := (readJSON fs.bookings).getD []

/-- The loader `getRoomTypes`: `readJSON('roomTypes') || []`. -/
def getRoomTypes (fs : FS) : List RoomType := (readJSON fs.roomTypes).getD []

/-- The loader `getGeneralData`: `readJSON('generalData') || {}`. -/
def getGeneralData (fs : FS) : GeneralData :=
  (readJSON fs.generalData).getD { adminEmail := .undefined }

/-! ## Responses and events -/

/-- The `message` texts of the JSON responses. -/
inductive Message where
  /-- The text `Missing required fields`. -/
  | missingRequiredFields
  /-- The text `Booking Request Received!`. -/
  | bookingRequestReceived
  /-- The text `Booking status updated to ${status}`. -/
  | statusUpdatedTo (status : JsVal)
  /-- The text `Booking not found`. -/
  | bookingNotFound
  /-- The text `Booking Confirmed Successfully`. -/
  | bookingConfirmedSuccessfully
  /-- The text `All booking records cleared successfully!`. -/
  | allBookingRecordsCleared
  deriving DecidableEq

/-- An HTTP response: `res.status(code).json(..)` (code 200 for a bare
`res.json`) or `res.redirect(location)`. -/
inductive Response where
  | json (code : Nat) (success : Bool) (message : Message) (bookingId : Option Int)
  | redirect (location : String)
  deriving DecidableEq

/-- An observable step of a handler. -/
inductive Event where
  /-- The call `writeJSON('bookings', data)`. -/
  | write (data : List Booking)
  /-- The response is sent. -/
  | respond (r : Response)
  /-- The call `mailTransporter.sendMail(m)`, resolved (`ok`) or thrown. -/
  | send (m : Mail) (ok : Bool)
  deriving DecidableEq

/-- What a handler leaves behind. -/
structure Outcome where
  fs : FS
  events : List Event
  deriving DecidableEq

/-- The response sent, if any. -/
def Outcome.response (o : Outcome) : Option Response :=
  o.events.findSome? (fun e => match e with
    | .respond r => some r
    | _ => none)

/-- The mail send attempts, in order. -/
def Outcome.mails (o : Outcome) : List Mail :=
  o.events.filterMap (fun e => match e with
    | .send m _ => some m
    | _ => none)

/-- The collections handed to `writeJSON('bookings', ..)`, in order. -/
def Outcome.writes (o : Outcome) : List (List Booking) :=
  o.events.filterMap (fun e => match e with
    | .write d => some d
    | _ => none)

/-! ## `POST /api/book` -/

/-- The fields of `req.body` read by `POST /api/book`. -/
structure BookRequest where
  guestName : JsVal
  phone : JsVal
  email : JsVal
  checkIn : JsVal
  checkOut : JsVal
  adults : JsVal
  children : JsVal
  roomType : JsVal
  breakfast : JsVal
  pickup : JsVal
  specialRequests : JsVal
  flightNo : JsVal
  arrivalTime : JsVal
  utr : JsVal
  isDirectBooking : JsVal
  deriving DecidableEq

/-- The constant `nights`:
`Math.max(1, Math.ceil((end - start) / (1000 * 60 * 60 * 24)))`. -/
def nights (start endD : JsNum) : JsNum :=
  mathMax (some 1) (mathCeil (jsDiv (jsSub endD start) (some (1000 * 60 * 60 * 24))))

/-- The constant `subtotal`: `selectedType.price * nights`. -/
def subtotal (price : ℚ) (n : JsNum) : JsNum := jsMul (some price) n

/-- The constant `discount`: `isDirect ? (subtotal * 0.2) : 0`. -/
def discount (isDirect : Bool) (sub : JsNum) : JsNum :=
  if isDirect then jsMul sub (some (1 / 5)) else some 0

/-- The term `(breakfast ? 500 * nights : 0)`. -/
def breakfastCharge (breakfast : JsVal) (n : JsNum) : JsNum :=
  if breakfast.truthy then jsMul (some 500) n else some 0

/-- The term `(pickup ? 800 : 0)`. -/
def pickupCharge (pickup : JsVal) : JsNum :=
  if pickup.truthy then some 800 else some 0

/-- The lookup `types.find(t => t.name === roomType)`. -/
def selectedType (types : List RoomType) (roomType : JsVal) : Option RoomType :=
  types.find? (fun t => decide (JsVal.str t.name = roomType))

/-- The variable `totalPrice` after the block "Calculate Price": `0`, replaced
when a room type is selected by
`Math.round(subtotal - discount + (breakfast ? 500 * nights : 0) + (pickup ? 800 : 0))`. -/
def totalPrice (env : Env) (types : List RoomType) (body : BookRequest) : JsNum :=
  let start := newDate env body.checkIn
  let endD := newDate env body.checkOut
  let n := nights start endD
  match selectedType types body.roomType with
  | some t =>
    let isDirect := body.isDirectBooking.truthy
    let sub := subtotal t.price n
    let disc := discount isDirect sub
    mathRound (jsAdd (jsAdd (jsSub sub disc) (breakfastCharge body.breakfast n))
      (pickupCharge body.pickup))
  | none => some 0

/-- The object `newBooking`. It has no `preArrivalEmailSent` key. `createdAt`
holds the time value of `new Date()`; a `NaN` total (invalid dates) is kept as
`NaN`, which `JSON.stringify` writes as `null`. -/
def newBooking (env : Env) (body : BookRequest) (total : JsNum) : Booking :=
  { id := env.now
    name := body.guestName
    guestName := body.guestName
    phone := body.phone
    email := body.email
    checkIn := body.checkIn
    checkOut := body.checkOut
    adults := body.adults
    children := body.children
    roomType := body.roomType
    breakfast := .bool body.breakfast.truthy
    pickup := .bool body.pickup.truthy
    flightNo := jsOr body.flightNo (.str "")
    arrivalTime := jsOr body.arrivalTime (.str "")
    specialRequests := jsOr body.specialRequests (.str "")
    totalPrice := .num total
    utr := jsOr body.utr (.str "")
    status := .str "Pending"
    createdAt := .num (some (env.createdAt : ℚ))
    preArrivalEmailSent := .undefined }

/-- The background task of `POST /api/book`, run after the response when mail
is configured: the owner alert to `settings.adminEmail || GMAIL_USER`, then,
if that resolved and the guest gave an e-mail address, the acknowledgement. -/
def backgroundMails (env : Env) (fs : FS) (body : BookRequest) (b : Booking) : List Event :=
  if env.mailConfigured then
    let ownerEmail := jsOr (getGeneralData fs).adminEmail (envVar env.GMAIL_USER)
    let owner : Mail := { kind := .ownerMailOptions, recipient := ownerEmail, bookingId := b.id }
    if env.sendMail owner then
      if body.email.truthy then
        let ack : Mail := { kind := .guestAckOptions, recipient := body.email, bookingId := b.id }
        [.send owner true, .send ack (env.sendMail ack)]
      else [.send owner true]
    else [.send owner false]
  else []

/-- The test of "Basic Validation":
`!guestName || !checkIn || !checkOut || !roomType`. -/
def missingRequired (body : BookRequest) : Bool :=
  !body.guestName.truthy || !body.checkIn.truthy || !body.checkOut.truthy
    || !body.roomType.truthy

/-- The handler of `POST /api/book`. -/
def bookHandler (env : Env) (fs : FS) (body : BookRequest) : Outcome :=
  if missingRequired body then
    { fs := fs, events := [.respond (.json 400 false .missingRequiredFields none)] }
  else
    let bookings := getBookings fs
    let total := totalPrice env (getRoomTypes fs) body
    let b := newBooking env body total
    let bookings1 := bookings ++ [b]
    let fs1 := (writeJSON fs bookings1).2
    { fs := fs1
      events := [.write bookings1,
                 .respond (.json 200 true .bookingRequestReceived (some b.id))]
                ++ backgroundMails env fs1 body b }

/-! ## `POST /admin/update-booking-status` and `POST /api/confirm-booking/:id` -/

/-- The assignment `booking.status = status` on the record returned by
`bookings.find(p)`: the first record satisfying `p` gets the new status, in
place. -/
def setStatus (p : Booking → Bool) (status : JsVal) : List Booking → List Booking
  | [] => []
  | b :: bs => if p b then { b with status := status } :: bs else b :: setStatus p status bs

/-- The test `s.includes(t)` on character lists. -/
def includesChars (t : List Char) : List Char → Bool
  | [] => t.isEmpty
  | c :: cs => t.isPrefixOf (c :: cs) || includesChars t cs

/-- The test `req.headers.accept && req.headers.accept.includes('application/json')`. -/
def acceptsJson (accept : Option String) : Bool :=
  match accept with
  | some a => includesChars "application/json".toList a.toList
  | none => false

/-- What `POST /admin/update-booking-status` reads from the request:
`req.body.bookingId`, `req.body.status` and the `Accept` header. -/
structure StatusRequest where
  bookingId : JsVal
  status : JsVal
  accept : Option String
  deriving DecidableEq

/-- The handler of `POST /admin/update-booking-status` (behind `isAuthenticated`). -/
def updateBookingStatus (env : Env) (fs : FS) (req : StatusRequest) : Outcome :=
  let bookings := getBookings fs
  let p := fun (b : Booking) => looseEq env b.id req.bookingId
  match bookings.find? p with
  | some booking =>
    let bookings1 := setStatus p req.status bookings
    let fs1 := (writeJSON fs bookings1).2
    let cancelMail : Mail :=
      { kind := .cancelMailOptions, recipient := booking.email, bookingId := booking.id }
    let mails : List Event :=
      if decide (req.status = .str "Cancelled") && booking.email.truthy && env.mailConfigured then
        [.send cancelMail (env.sendMail cancelMail)]
      else []
    let r : Response :=
      if acceptsJson req.accept then .json 200 true (.statusUpdatedTo req.status) none
      else .redirect "/admin/settings?tab=bookings&msg=Booking Updated"
    { fs := fs1, events := [.write bookings1] ++ mails ++ [.respond r] }
  | none =>
    let r : Response :=
      if acceptsJson req.accept then .json 404 false .bookingNotFound none
      else .redirect "/admin/settings?tab=bookings&msg=Error: Booking Not Found"
    { fs := fs, events := [.respond r] }

/-- What `POST /api/confirm-booking/:id` receives: the path parameter
`req.params.id` and the `Accept` header (which the handler does not read). -/
structure ConfirmRequest where
  id : String
  accept : Option String
  deriving DecidableEq

/-- The handler of `POST /api/confirm-booking/:id` (behind `isAuthenticated`). -/
def confirmBooking (env : Env) (fs : FS) (req : ConfirmRequest) : Outcome :=
  let bookings := getBookings fs
  let p := fun (b : Booking) => looseEq env b.id (.str req.id)
  match bookings.find? p with
  | none => { fs := fs, events := [.respond (.json 404 false .bookingNotFound none)] }
  | some booking =>
    let bookings1 := setStatus p (.str "Confirmed") bookings
    let guestMail : Mail :=
      { kind := .guestMailOptions, recipient := booking.email, bookingId := booking.id }
    let mails : List Event :=
      if env.mailConfigured && booking.email.truthy then
        [.send guestMail (env.sendMail guestMail)]
      else []
    let fs1 := (writeJSON fs bookings1).2
    { fs := fs1
      events := mails ++ [.write bookings1,
        .respond (.json 200 true .bookingConfirmedSuccessfully none)] }

/-! ## `POST /admin/clear-all-bookings` -/

/-- The handler of `POST /admin/clear-all-bookings` (behind `isAuthenticated`):
`writeJSON('bookings', [])`, then the success response. -/
def clearAllBookings (fs : FS) : Outcome :=
  { fs := (writeJSON fs []).2
    events := [.write [], .respond (.json 200 true .allBookingRecordsCleared none)] }

/-! ## The reminder sweep `sendPreArrivalEmails` -/

/-- The message `welcomeMailOptions` for a booking. -/
def welcomeMail (b : Booking) : Mail :=
  { kind := .welcomeMailOptions, recipient := b.email, bookingId := b.id }

/-- The outer test of the sweep's loop body:
`booking.status === 'Confirmed' && booking.checkIn === tomorrowStr && !booking.preArrivalEmailSent`. -/
def dueTomorrow (tomorrowStr : String) (b : Booking) : Bool :=
  decide (b.status = .str "Confirmed") && decide (b.checkIn = .str tomorrowStr)
    && !b.preArrivalEmailSent.truthy

/-- The state of the sweep's `for` loop: the records as mutated, the send
attempts made, and the counter `sentCount`. -/
structure SweepState where
  bookings : List Booking
  events : List Event
  sentCount : Nat
  deriving DecidableEq

/-- The `for (const booking of bookings)` loop of `sendPreArrivalEmails`, with
`tomorrowStr` the date string the sweep computed from `new Date()`. A record
that is due and has an e-mail address, with mail configured, gets one send
attempt; when the send resolves its flag is set to `true` and `sentCount` is
incremented, when it throws the record is left as it is. -/
def sweepLoop (env : Env) (tomorrowStr : String) : List Booking → SweepState
  | [] => { bookings := [], events := [], sentCount := 0 }
  | b :: rest =>
    let r := sweepLoop env tomorrowStr rest
    if dueTomorrow tomorrowStr b then
      if env.mailConfigured && b.email.truthy then
        if env.sendMail (welcomeMail b) then
          { bookings := { b with preArrivalEmailSent := .bool true } :: r.bookings
            events := .send (welcomeMail b) true :: r.events
            sentCount := r.sentCount + 1 }
        else
          { bookings := b :: r.bookings
            events := .send (welcomeMail b) false :: r.events
            sentCount := r.sentCount }
      else { bookings := b :: r.bookings, events := r.events, sentCount := r.sentCount }
    else { bookings := b :: r.bookings, events := r.events, sentCount := r.sentCount }

/-- The function `sendPreArrivalEmails`: the loop over `getBookings()`, then
`writeJSON('bookings', bookings)` if `sentCount > 0`. -/
def sendPreArrivalEmails (env : Env) (tomorrowStr : String) (fs : FS) : Outcome :=
  let r := sweepLoop env tomorrowStr (getBookings fs)
  if r.sentCount > 0 then
    { fs := (writeJSON fs r.bookings).2, events := r.events ++ [.write r.bookings] }
  else { fs := fs, events := r.events }

/-! ## Concrete data for the scenarios -/

/-- An environment with the date-only parser, no mail configuration, and the
clock at `now`. -/
def quietEnv (now : Int) : Env :=
  { dateParse := isoDate
    toNumber := decimalToNumber
    now := now
    createdAt := now
    GMAIL_USER := none
    GMAIL_APP_PASSWORD := none
    sendMail := fun _ => true }

/-- A data directory with one room type, `Deluxe` at 5000 a night, and the
given bookings. -/
def deluxeFS (bookings : List Booking) : FS :=
  { bookings := .parsed bookings
    roomTypes := .parsed [{ name := "Deluxe", price := 5000 }]
    generalData := .missing }

/-- A request with the four required fields and the three flags; every other
field is absent. -/
def simpleRequest (guestName checkIn checkOut roomType : String)
    (breakfast pickup isDirectBooking : Bool) : BookRequest :=
  { guestName := .str guestName
    phone := .undefined
    email := .undefined
    checkIn := .str checkIn
    checkOut := .str checkOut
    adults := .undefined
    children := .undefined
    roomType := .str roomType
    breakfast := .bool breakfast
    pickup := .bool pickup
    specialRequests := .undefined
    flightNo := .undefined
    arrivalTime := .undefined
    utr := .undefined
    isDirectBooking := .bool isDirectBooking }

/-! ## Records the sweep writes to -/

/-- The two tests of the sweep's loop body that concern the record: it is due
tomorrow (Confirmed, check-in `tomorrowStr`, flag not set) and `booking.email`
is truthy. -/
def eligible (tomorrowStr : String) (b : Booking) : Bool :=
  dueTomorrow tomorrowStr b && b.email.truthy

/-! ## Runs of submissions -/

/-- The ids of a collection, in order. -/
def ids (bs : List Booking) : List Int := bs.map (fun b => b.id)

/-- The data directory after a run of `POST /api/book` requests, each handled
in its own environment (its own clock value). -/
def submitAll (fs : FS) : List (Env × BookRequest) → FS
  | [] => fs
  | x :: rest => submitAll (bookHandler x.1 fs x.2).fs rest

/-- A data directory holding one Deluxe booking with id `1690000000000`. -/
def oneBookingFS : FS :=
  deluxeFS [newBooking (quietEnv 1690000000000)
    (simpleRequest "Ravi" "2024-02-01" "2024-02-02" "Deluxe" false false false) (some 5000)]

/-- An environment like `quietEnv` but with mail configured; every send
resolves when `ok` is `true` and throws when it is `false`. -/
def mailEnv (now : Int) (ok : Bool) : Env :=
  { dateParse := isoDate
    toNumber := decimalToNumber
    now := now
    createdAt := now
    GMAIL_USER := some "inn@example.com"
    GMAIL_APP_PASSWORD := some "app-password"
    sendMail := fun _ => ok }

/-- A Deluxe booking of guest `Meera` with id `1690000000001`, an e-mail
address, check-in `2024-03-01`, and the given status. -/
def meera (status : String) : Booking :=
  { newBooking (quietEnv 1690000000001)
      { simpleRequest "Meera" "2024-03-01" "2024-03-03" "Deluxe" true false true with
        email := .str "meera@example.com", phone := .str "9000000000" } (some 9000) with
    status := .str status }

/-- A data directory holding the booking of `oneBookingFS` (no e-mail address,
Pending) followed by `meera status`. -/
def twoBookingFS (status : String) : FS :=
  deluxeFS [newBooking (quietEnv 1690000000000)
    (simpleRequest "Ravi" "2024-02-01" "2024-02-02" "Deluxe" false false false) (some 5000),
    meera status]

/-! ## The admin dashboard `GET /admin/settings` and `GET /admin/revenue-details` -/

/-- The addend `(b.totalPrice || 0)` of the revenue sums, as a number: a falsy
total counts 0, `true` counts 1, and a non-empty string (which would turn `+`
into concatenation) leaves no number (`NaN`). -/
def priceOrZero (v : JsVal) : JsNum :=
  match jsOr v (.num (some 0)) with
  | .num x => x
  | .bool b => some (if b then 1 else 0)
  | .null => some 0
  | .undefined => none
  | .str _ => none

/-- The reducer `allBookings.reduce((sum, b) => b.status === 'Confirmed' ?
sum + (b.totalPrice || 0) : sum, 0)` of the dashboard. -/
def dashboardRevenue (allBookings : List Booking) : JsNum :=
  allBookings.foldl (fun sum b =>
    if b.status = .str "Confirmed" then jsAdd sum (priceOrZero b.totalPrice) else sum) (some 0)

/-- The count `allBookings.filter(b => b.status === 'Pending').length`. -/
def pendingCount (allBookings : List Booking) : Nat :=
  (allBookings.filter (fun b => decide (b.status = .str "Pending"))).length

/-- What `GET /admin/settings` hands to the template, as far as bookings are
concerned: `bookings` (the list shown), `allBookings`, and the fields
`revenue`, `pendingCount` and `totalBookings` of `stats`. -/
structure SettingsView where
  bookings : List Booking
  allBookings : List Booking
  revenue : JsNum
  pendingCount : Nat
  totalBookings : Nat
  deriving DecidableEq

/-- The handler of `GET /admin/settings` (behind `isAuthenticated`), with
`queryStatus` the query parameter `req.query.status` (`none` when absent,
turned into a JavaScript value by `envVar`):
`allBookings = getBookings().reverse()`, and the list shown is `allBookings`,
filtered by `b.status === req.query.status` when the parameter is truthy. -/
def adminSettings (fs : FS) (queryStatus : Option String) : SettingsView :=
  let allBookings := (getBookings fs).reverse
  let viewBookings :=
    if (envVar queryStatus).truthy then
      allBookings.filter (fun b => decide (b.status = envVar queryStatus))
    else allBookings
  { bookings := viewBookings
    allBookings := allBookings
    revenue := dashboardRevenue allBookings
    pendingCount := pendingCount allBookings
    totalBookings := allBookings.length }

/-- The handler of `GET /admin/revenue-details`: the Confirmed bookings of the
reversed collection and the sum of their `(b.totalPrice || 0)`. -/
def revenueDetails (fs : FS) : List Booking × JsNum :=
  let bookings := (getBookings fs).reverse.filter (fun b => decide (b.status = .str "Confirmed"))
  (bookings, bookings.foldl (fun sum b => jsAdd sum (priceOrZero b.totalPrice)) (some 0))

/-! ## The client's `calculatePrice` (`public/js/booking-system.js`) -/

/-- The object `{ nights, subtotal, discount, total }` returned by
`calculatePrice`. -/
structure PriceQuote where
  nights : JsNum
  subtotal : JsNum
  discount : JsNum
  total : JsNum
  deriving DecidableEq

/-- The function `calculatePrice` of the booking form. `cin` and `cout` are the
values of the two date inputs, `roomSelected` says that the room select exists
and has a value, `basePrice` is `parseInt(selectedOption.dataset.price) || 0`,
and the three flags are the hidden direct-booking input and the two add-on
check boxes. The result is `none` when the function returns early. -/
def calculatePrice (env : Env) (cin cout : JsVal) (roomSelected : Bool) (basePrice : ℚ)
    (isDirect pickup breakfast : Bool) : Option PriceQuote :=
  if !cin.truthy || !cout.truthy || !roomSelected then none
  else
    let start := newDate env cin
    let endD := newDate env cout
    let n := mathMax (some 0) (mathCeil (jsDiv (jsSub endD start) (some (1000 * 60 * 60 * 24))))
    let sub := jsMul (some basePrice) n
    let disc := if isDirect then jsMul sub (some (1 / 5)) else some 0
    let total0 := jsSub sub disc
    let total1 := if pickup then jsAdd total0 (some 800) else total0
    let total2 := if breakfast then jsAdd total1 (jsMul (some 500) n) else total1
    some { nights := n, subtotal := sub, discount := disc, total := total2 }

/-! ## `getRoomsWithAvailability` -/

/-- A room type as read by `getRoomsWithAvailability`: its name and the key
`assignedRooms` (`none` when the key is absent). -/
structure TypeRooms where
  name : String
  assignedRooms : Option (List String)
  deriving DecidableEq

/-- A floor of `floors.json`: the keys `rooms` and `roomStatuses` (an object
from room number to status, as a key/value list), `none` when absent. -/
structure Floor where
  rooms : Option (List String)
  roomStatuses : Option (List (String × String))
  deriving DecidableEq

/-- The constant `status`:
`(floor.roomStatuses && floor.roomStatuses[roomNum]) || 'Available'`. -/
def roomStatus (floor : Floor) (roomNum : String) : String :=
  match floor.roomStatuses with
  | some m =>
    match m.lookup roomNum with
    | some st => if st = "" then "Available" else st
    | none => "Available"
  | none => "Available"

/-- The inner loop `floor.rooms.forEach(roomNum => ..)`: the pair of counters
`(totalRooms, availableRooms)` after the rooms of one floor. -/
def countFloorRooms (type : TypeRooms) (floor : Floor) :
    Nat × Nat → List String → Nat × Nat
  | acc, [] => acc
  | acc, roomNum :: rest =>
    let assigned : Bool :=
      match type.assignedRooms with
      | some rs => rs.contains roomNum
      | none => false
    if assigned then
      if roomStatus floor roomNum = "Available" then
        countFloorRooms type floor (acc.1 + 1, acc.2 + 1) rest
      else countFloorRooms type floor (acc.1 + 1, acc.2) rest
    else countFloorRooms type floor acc rest

/-- The outer loop `floors.forEach(floor => ..)`. -/
def countRooms (type : TypeRooms) : Nat × Nat → List Floor → Nat × Nat
  | acc, [] => acc
  | acc, floor :: rest =>
    match floor.rooms with
    | some rooms => countRooms type (countFloorRooms type floor acc rooms) rest
    | none => countRooms type acc rest

/-- An entry returned by `getRoomsWithAvailability`: the room type, spread,
with `available`, `availableCount` and `totalCount`. -/
structure RoomAvailability where
  type : TypeRooms
  available : Bool
  availableCount : Nat
  totalCount : Nat
  deriving DecidableEq

/-- The helper `getRoomsWithAvailability`, on the lists returned by
`getRoomTypes()` and `getFloors()`: the counts, then the two fallbacks
`if (totalRooms === 0) totalRooms = 5` and `if (availableRooms === 0)
availableRooms = 3`. -/
def getRoomsWithAvailability (types : List TypeRooms) (floors : List Floor) :
    List RoomAvailability :=
  types.map (fun type =>
    let counted := countRooms type (0, 0) floors
    let totalRooms := if counted.1 = 0 then 5 else counted.1
    let availableRooms := if counted.2 = 0 then 3 else counted.2
    { type := type
      available := decide (availableRooms > 0)
      availableCount := availableRooms
      totalCount := totalRooms })

/-! ## `OTAChannelManager` (`public/js/ota-channel-manager.js`) -/

/-- The keys of `this.channels`. -/
inductive Channel where
  | direct
  | bookingcom
  | makemytrip
  | airbnb
  | goibibo
  | agoda
  deriving DecidableEq

/-- The lookup `this.channels[channelId]` followed by the test
`!channel || !channel.active`: the six channels are all active and stay so;
every other id has no active channel. -/
def activeChannel (channelId : String) : Option Channel :=
  if channelId = "direct" then some .direct
  else if channelId = "bookingcom" then some .bookingcom
  else if channelId = "makemytrip" then some .makemytrip
  else if channelId = "airbnb" then some .airbnb
  else if channelId = "goibibo" then some .goibibo
  else if channelId = "agoda" then some .agoda
  else none

/-- The field `commission` of a channel. -/
def Channel.commission : Channel → ℚ
  | .direct => 0
  | .bookingcom => 3 / 20
  | .makemytrip => 9 / 50
  | .airbnb => 7 / 50
  | .goibibo => 4 / 25
  | .agoda => 3 / 20

/-- An entry of `inventory.allocated`. -/
structure ChannelCounters where
  rooms : Int
  bookings : Int
  revenue : JsNum
  deriving DecidableEq

/-- A record pushed on `inventory.bookings` (the fields the manager sets). -/
structure ChannelBooking where
  id : Int
  channel : Channel
  grossRevenue : JsNum
  commission : JsNum
  netRevenue : JsNum
  deriving DecidableEq

/-- The object `this.inventory`: `totalRooms`, the six entries of `allocated`,
and `bookings`. -/
structure Inventory where
  totalRooms : Int
  direct : ChannelCounters
  bookingcom : ChannelCounters
  makemytrip : ChannelCounters
  airbnb : ChannelCounters
  goibibo : ChannelCounters
  agoda : ChannelCounters
  bookings : List ChannelBooking
  deriving DecidableEq

/-- The entry `inventory.allocated[channel]`. -/
def Inventory.allocated (inv : Inventory) : Channel → ChannelCounters
  | .direct => inv.direct
  | .bookingcom => inv.bookingcom
  | .makemytrip => inv.makemytrip
  | .airbnb => inv.airbnb
  | .goibibo => inv.goibibo
  | .agoda => inv.agoda

/-- The inventory with `inventory.allocated[channel]` replaced. -/
def Inventory.setAllocated (inv : Inventory) (c : Channel) (x : ChannelCounters) : Inventory :=
  match c with
  | .direct => { inv with direct := x }
  | .bookingcom => { inv with bookingcom := x }
  | .makemytrip => { inv with makemytrip := x }
  | .airbnb => { inv with airbnb := x }
  | .goibibo => { inv with goibibo := x }
  | .agoda => { inv with agoda := x }

/-- The inventory after the constructor: `totalRooms: 20`, every entry zeroed
by `initializeInventory`, then `optimizeInventoryAllocation` with
`Math.floor(totalRooms * share)` rooms per channel. -/
def initialInventory : Inventory :=
  { totalRooms := 20
    direct := { rooms := ⌊(20 : ℚ) * (2 / 5)⌋, bookings := 0, revenue := some 0 }
    bookingcom := { rooms := ⌊(20 : ℚ) * (1 / 5)⌋, bookings := 0, revenue := some 0 }
    makemytrip := { rooms := ⌊(20 : ℚ) * (3 / 20)⌋, bookings := 0, revenue := some 0 }
    airbnb := { rooms := ⌊(20 : ℚ) * (1 / 10)⌋, bookings := 0, revenue := some 0 }
    goibibo := { rooms := ⌊(20 : ℚ) * (2 / 25)⌋, bookings := 0, revenue := some 0 }
    agoda := { rooms := ⌊(20 : ℚ) * (7 / 100)⌋, bookings := 0, revenue := some 0 }
    bookings := [] }

/-- The method `getAvailableRooms` for a channel of `this.channels`:
`Math.max(0, allocated - booked)`. -/
def getAvailableRooms (inv : Inventory) (c : Channel) : Int :=
  max 0 ((inv.allocated c).rooms - (inv.allocated c).bookings)

/-- The result of `processChannelBooking`. -/
inductive ChannelResult where
  /-- The object `{ success: false, error: 'Channel not active' }`. -/
  | channelNotActive
  /-- The object `{ success: false, error: 'No rooms available on this channel' }`. -/
  | noRoomsAvailable
  /-- The object `{ success: true, booking }`. -/
  | success (booking : ChannelBooking)
  deriving DecidableEq

/-- The field `success` of the result. -/
def ChannelResult.isSuccess : ChannelResult → Bool
  | .success _ => true
  | _ => false

/-- The method `processChannelBooking(channelId, bookingData)`, with
`totalPrice` the field `bookingData.totalPrice` and `now` the value of
`Date.now()`. -/
def processChannelBooking (inv : Inventory) (channelId : String) (totalPrice : JsNum)
    (now : Int) : Inventory × ChannelResult :=
  match activeChannel channelId with
  | none => (inv, .channelNotActive)
  | some c =>
    if getAvailableRooms inv c ≤ 0 then (inv, .noRoomsAvailable)
    else
      let grossRevenue := totalPrice
      let commission := jsMul grossRevenue (some c.commission)
      let netRevenue := jsSub grossRevenue commission
      let booking : ChannelBooking :=
        { id := now, channel := c, grossRevenue := grossRevenue
          commission := mathRound commission, netRevenue := mathRound netRevenue }
      let counters := inv.allocated c
      let inv1 := { inv with bookings := inv.bookings ++ [booking] }
      (inv1.setAllocated c
        { counters with bookings := counters.bookings + 1
                        revenue := jsAdd counters.revenue netRevenue },
       .success booking)

/-- A call of `processChannelBooking`: channel id, total price, clock value. -/
structure ChannelCall where
  channelId : String
  totalPrice : JsNum
  now : Int

/-- The inventory after a sequence of `processChannelBooking` calls. -/
def processAll (inv : Inventory) : List ChannelCall → Inventory
  | [] => inv
  | call :: rest =>
    processAll (processChannelBooking inv call.channelId call.totalPrice call.now).1 rest

/-- The sum `totalAllocated` of `checkOverbooking`. -/
def totalAllocated (inv : Inventory) : Int :=
  inv.direct.rooms + inv.bookingcom.rooms + inv.makemytrip.rooms + inv.airbnb.rooms
    + inv.goibibo.rooms + inv.agoda.rooms

/-- The test `totalAllocated > this.inventory.totalRooms` of `checkOverbooking`
(the HIGH alert). -/
def overallocated (inv : Inventory) : Bool := decide (totalAllocated inv > inv.totalRooms)

/-- The test `data.bookings > data.rooms` of `checkOverbooking` for one channel
(the CRITICAL alert). -/
def overbooked (inv : Inventory) (c : Channel) : Bool :=
  decide ((inv.allocated c).bookings > (inv.allocated c).rooms)

/-! ## Basic facts -/

theorem mathRound_eq_round (x : ℚ) : mathRound (some x) = some ((round x : ℤ) : ℚ) := by
  simp [mathRound, round_eq]

theorem mathRound_intCast (z : ℤ) : mathRound (some (z : ℚ)) = some (z : ℚ) := by
  have h : ⌊(z : ℚ) + 1 / 2⌋ = z := by
    rw [Int.floor_eq_iff]
    constructor <;> norm_num
  simp only [mathRound, h]

theorem nights_some (s e : ℚ) :
    nights (some s) (some e) = some ((max 1 ⌈(e - s) / 86400000⌉ : ℤ) : ℚ) := by
  have h : ((1000 : ℚ) * 60 * 60 * 24) = 86400000 := by norm_num
  simp [nights, jsSub, jsDiv, mathCeil, mathMax, h]

theorem bookHandler_reject (env : Env) (fs : FS) (body : BookRequest)
    (h : missingRequired body = true) :
    bookHandler env fs body
      = { fs := fs, events := [.respond (.json 400 false .missingRequiredFields none)] } := by
  simp [bookHandler, h]

theorem bookHandler_accept (env : Env) (fs : FS) (body : BookRequest)
    (h : missingRequired body = false) :
    bookHandler env fs body
      = { fs := { fs with bookings := .parsed (getBookings fs ++
              [newBooking env body (totalPrice env (getRoomTypes fs) body)]) }
          events := [.write (getBookings fs ++
              [newBooking env body (totalPrice env (getRoomTypes fs) body)]),
            .respond (.json 200 true .bookingRequestReceived (some env.now))]
            ++ backgroundMails env { fs with bookings := .parsed (getBookings fs ++
              [newBooking env body (totalPrice env (getRoomTypes fs) body)]) } body
              (newBooking env body (totalPrice env (getRoomTypes fs) body)) } := by
  simp [bookHandler, h, writeJSON, newBooking]

theorem missingRequired_eq_false (body : BookRequest)
    (hg : body.guestName.truthy = true) (hci : body.checkIn.truthy = true)
    (hco : body.checkOut.truthy = true) (hrt : body.roomType.truthy = true) :
    missingRequired body = false := by
  simp [missingRequired, hg, hci, hco, hrt]

theorem totalPrice_matched (env : Env) (types : List RoomType) (body : BookRequest)
    (t : RoomType) (n : ℚ)
    (ht : selectedType types body.roomType = some t)
    (hn : nights (newDate env body.checkIn) (newDate env body.checkOut) = some n) :
    totalPrice env types body
      = mathRound (some (t.price * n
          - (if body.isDirectBooking.truthy then t.price * n * (1 / 5) else 0)
          + (if body.breakfast.truthy then 500 * n else 0)
          + (if body.pickup.truthy then 800 else 0))) := by
  simp only [totalPrice, ht, hn, subtotal, discount, breakfastCharge, pickupCharge]
  split_ifs <;> simp only [jsMul, jsSub, jsAdd]

theorem round_fifths_stable (m : ℤ) (ε : ℚ) (hε : |ε| < 1 / 10) :
    round ((m : ℚ) / 5 + ε) = round ((m : ℚ) / 5) := by
  obtain ⟨hlo, hhi⟩ := abs_lt.mp hε
  have hm : m = 5 * (m / 5) + m % 5 := (Int.ediv_add_emod m 5).symm
  have h0 : 0 ≤ m % 5 := Int.emod_nonneg m (by norm_num)
  have h5 : m % 5 < 5 := Int.emod_lt_of_pos m (by norm_num)
  generalize m / 5 = q at hm
  generalize m % 5 = r at hm h0 h5
  subst hm
  have key : ∀ (x : ℚ) (z : ℤ), (z : ℚ) ≤ x + 1 / 2 → x + 1 / 2 < z + 1 → round x = z := by
    intro x z h1 h2
    rw [round_eq, Int.floor_eq_iff]
    exact ⟨h1, h2⟩
  interval_cases r
  all_goals first
    | (rw [key _ q (by push_cast; linarith) (by push_cast; linarith),
           key _ q (by push_cast; linarith) (by push_cast; linarith)])
    | (rw [key _ (q + 1) (by push_cast; linarith) (by push_cast; linarith),
           key _ (q + 1) (by push_cast; linarith) (by push_cast; linarith)])

/-- With an integer price and an integer number of nights the value handed to
`Math.round` is a multiple of `1/5`, so an error below `1/10` in computing it
does not change the rounded total. -/
theorem price_rounding_stable (p n : ℤ) (isDirect breakfast pickup : Bool) (ε : ℚ)
    (hε : |ε| < 1 / 10) :
    mathRound (some ((p : ℚ) * n - (if isDirect then (p : ℚ) * n * (1 / 5) else 0)
        + (if breakfast then 500 * n else 0) + (if pickup then 800 else 0) + ε))
      = mathRound (some ((p : ℚ) * n - (if isDirect then (p : ℚ) * n * (1 / 5) else 0)
        + (if breakfast then 500 * n else 0) + (if pickup then 800 else 0))) := by
  have hfifth : ∃ m : ℤ, ((p : ℚ) * n - (if isDirect then (p : ℚ) * n * (1 / 5) else 0)
        + (if breakfast then 500 * n else 0) + (if pickup then 800 else 0)) = (m : ℚ) / 5 := by
    refine ⟨5 * (p * n) - (if isDirect then p * n else 0)
      + (if breakfast then 2500 * n else 0) + (if pickup then 4000 else 0), ?_⟩
    cases isDirect <;> cases breakfast <;> cases pickup <;> simp <;> ring
  obtain ⟨m, hm⟩ := hfifth
  rw [hm, mathRound_eq_round, mathRound_eq_round, round_fifths_stable m ε hε]

/-! ## Pricing at submission -/

/-- Claim C1. For an accepted submission whose room type is found with a
non-negative integer price `p`, with `n` the computed nights and boolean flags,
the record appended to the store has
`totalPrice = round (p*n - d + a)` for `d = 0.2*p*n` (direct) or `0`, and
`a = (500*n if breakfast) + (800 if pickup)`; this is `round (0.8*p*n + a)` for a
direct booking and exactly `p*n + a` otherwise. -/
theorem book_totalPrice_formula (env : Env) (fs : FS) (body : BookRequest)
    (t : RoomType) (p : ℕ) (n : ℤ) (breakfast pickup isDirect : Bool)
    (hreq : missingRequired body = false)
    (ht : selectedType (getRoomTypes fs) body.roomType = some t)
    (hp : t.price = (p : ℚ))
    (hn : nights (newDate env body.checkIn) (newDate env body.checkOut) = some (n : ℚ))
    (hb : body.breakfast = .bool breakfast) (hk : body.pickup = .bool pickup)
    (hd : body.isDirectBooking = .bool isDirect) :
    ∃ r : Booking,
      (bookHandler env fs body).fs.bookings = .parsed (getBookings fs ++ [r]) ∧
      r.totalPrice = .num (some ((round
        ((p : ℚ) * n - (if isDirect then (1 / 5 : ℚ) * ((p : ℚ) * n) else 0)
          + ((if breakfast then (500 : ℚ) * n else 0) + (if pickup then 800 else 0))) : ℤ) : ℚ)) ∧
      (isDirect = true → r.totalPrice = .num (some ((round
        ((4 / 5 : ℚ) * p * n
          + ((if breakfast then (500 : ℚ) * n else 0) + (if pickup then 800 else 0))) : ℤ) : ℚ))) ∧
      (isDirect = false → r.totalPrice = .num (some
        ((p : ℚ) * n + ((if breakfast then (500 : ℚ) * n else 0) + (if pickup then 800 else 0))))) := by
  have key : totalPrice env (getRoomTypes fs) body = some ((round
        ((p : ℚ) * n - (if isDirect then (1 / 5 : ℚ) * ((p : ℚ) * n) else 0)
          + ((if breakfast then (500 : ℚ) * n else 0) + (if pickup then 800 else 0))) : ℤ) : ℚ) := by
    simp only [totalPrice, ht, hn, hp, hb, hk, hd, subtotal, discount, breakfastCharge,
      pickupCharge, JsVal.truthy]
    cases isDirect <;> cases breakfast <;> cases pickup <;>
      simp only [jsMul, jsSub, jsAdd, mathRound_eq_round, if_true, if_false,
        Bool.false_eq_true, reduceIte] <;> congr 3 <;> ring
  refine ⟨newBooking env body (totalPrice env (getRoomTypes fs) body), ?_, ?_, ?_, ?_⟩
  · rw [bookHandler_accept env fs body hreq]
  · simp [newBooking, key]
  · intro hdir
    subst hdir
    simp only [newBooking, key]
    congr 5
    simp only [if_true]
    ring
  · intro hdir
    subst hdir
    simp only [newBooking, key]
    congr 2
    have hz : ((p : ℚ) * n - (if false = true then (1 / 5 : ℚ) * ((p : ℚ) * n) else 0)
          + ((if breakfast then (500 : ℚ) * n else 0) + (if pickup then 800 else 0)))
        = (((p : ℤ) * n + ((if breakfast then 500 * n else 0) + (if pickup then 800 else 0)) : ℤ) : ℚ) := by
      cases breakfast <;> cases pickup <;> simp
    rw [hz, round_intCast]
    cases breakfast <;> cases pickup <;> simp

/-- Witness of C1: a direct three-night Deluxe booking with both add-ons
stores `round (0.8 * 5000 * 3 + 1500 + 800) = 14300`. -/
theorem book_totalPrice_formula_witness :
    ∃ r : Booking,
      (bookHandler (quietEnv 1700000000000) (deluxeFS [])
        (simpleRequest "Asha" "2024-03-01" "2024-03-04" "Deluxe" true true true)).fs.bookings
        = .parsed (getBookings (deluxeFS []) ++ [r]) ∧
      r.totalPrice = .num (some 14300) := by
  obtain ⟨r, h1, _, h3, _⟩ := book_totalPrice_formula (quietEnv 1700000000000) (deluxeFS [])
    (simpleRequest "Asha" "2024-03-01" "2024-03-04" "Deluxe" true true true)
    { name := "Deluxe", price := 5000 } 5000 3 true true true
    (by decide) (by decide!) (by decide!) (by decide!) rfl rfl rfl
  refine ⟨r, h1, ?_⟩
  rw [h3 rfl]
  decide!

/-- Claim C2. The Deluxe scenario (5000 a night, 2024-03-01 to 2024-03-03,
breakfast, no pickup, direct): nights 2, subtotal 10000, discount 2000, add-ons
1000, and the record appended to any store has totalPrice 9000 and status
Pending. -/
theorem deluxe_scenario (B : List Booking) (now : Int) :
    selectedType (getRoomTypes (deluxeFS B)) (.str "Deluxe")
      = some { name := "Deluxe", price := 5000 } ∧
    nights (newDate (quietEnv now) (.str "2024-03-01")) (newDate (quietEnv now) (.str "2024-03-03"))
      = some 2 ∧
    subtotal 5000 (nights (newDate (quietEnv now) (.str "2024-03-01"))
      (newDate (quietEnv now) (.str "2024-03-03"))) = some 10000 ∧
    discount true (subtotal 5000 (nights (newDate (quietEnv now) (.str "2024-03-01"))
      (newDate (quietEnv now) (.str "2024-03-03")))) = some 2000 ∧
    jsAdd (breakfastCharge (.bool true) (nights (newDate (quietEnv now) (.str "2024-03-01"))
      (newDate (quietEnv now) (.str "2024-03-03")))) (pickupCharge (.bool false)) = some 1000 ∧
    ∃ r : Booking,
      (bookHandler (quietEnv now) (deluxeFS B)
        (simpleRequest "Asha" "2024-03-01" "2024-03-03" "Deluxe" true false true)).fs.bookings
        = .parsed (B ++ [r]) ∧
      r.totalPrice = .num (some 9000) ∧ r.status = .str "Pending" := by
  have hn : nights (newDate (quietEnv now) (.str "2024-03-01"))
      (newDate (quietEnv now) (.str "2024-03-03")) = some 2 := by
    show nights (newDate (quietEnv 0) (.str "2024-03-01"))
      (newDate (quietEnv 0) (.str "2024-03-03")) = some 2
    decide!
  have htot : totalPrice (quietEnv now) (getRoomTypes (deluxeFS B))
      (simpleRequest "Asha" "2024-03-01" "2024-03-03" "Deluxe" true false true) = some 9000 := by
    show totalPrice (quietEnv 0) (getRoomTypes (deluxeFS []))
      (simpleRequest "Asha" "2024-03-01" "2024-03-03" "Deluxe" true false true) = some 9000
    decide!
  rw [hn]
  refine ⟨?_, rfl, by decide!, by decide!, by decide!, ?_⟩
  · show selectedType (getRoomTypes (deluxeFS [])) (.str "Deluxe")
      = some { name := "Deluxe", price := 5000 }
    decide!
  refine ⟨newBooking (quietEnv now)
    (simpleRequest "Asha" "2024-03-01" "2024-03-03" "Deluxe" true false true) (some 9000), ?_, rfl, rfl⟩
  rw [bookHandler_accept _ _ _ (by decide), htot]
  rfl

/-! ## Nights -/

/-- Claim C3. For valid dates with time values `s` (check-in) and `e`
(check-out), the handler's nights value is `max 1 ⌈(e - s) / 86400000⌉`: it is
at least 1, it is 1 when `e ≤ s`, and it is `k` when `e` is `k ≥ 1` whole days
after `s`. -/
theorem nights_valid_dates (env : Env) (body : BookRequest) (s e : ℤ)
    (hs : newDate env body.checkIn = some (s : ℚ))
    (he : newDate env body.checkOut = some (e : ℚ)) :
    nights (newDate env body.checkIn) (newDate env body.checkOut)
        = some ((max 1 ⌈((e - s : ℤ) : ℚ) / 86400000⌉ : ℤ) : ℚ) ∧
    (1 : ℤ) ≤ max 1 ⌈((e - s : ℤ) : ℚ) / 86400000⌉ ∧
    (e ≤ s → nights (newDate env body.checkIn) (newDate env body.checkOut) = some 1) ∧
    (∀ k : ℤ, 1 ≤ k → e = s + k * 86400000 →
      nights (newDate env body.checkIn) (newDate env body.checkOut) = some (k : ℚ)) := by
  have hmain : nights (newDate env body.checkIn) (newDate env body.checkOut)
        = some ((max 1 ⌈((e - s : ℤ) : ℚ) / 86400000⌉ : ℤ) : ℚ) := by
    rw [hs, he, nights_some]
    push_cast
    rfl
  refine ⟨hmain, le_max_left _ _, ?_, ?_⟩
  · intro hle
    rw [hmain]
    have hc : ⌈((e - s : ℤ) : ℚ) / 86400000⌉ ≤ 1 := by
      rw [Int.ceil_le]
      have h0 : ((e - s : ℤ) : ℚ) ≤ 0 := by exact_mod_cast sub_nonpos.mpr hle
      have : ((e - s : ℤ) : ℚ) / 86400000 ≤ 0 := div_nonpos_of_nonpos_of_nonneg h0 (by norm_num)
      push_cast at this ⊢
      linarith
    rw [max_eq_left hc]
    simp
  · intro k hk hek
    rw [hmain]
    have hq : ((e - s : ℤ) : ℚ) / 86400000 = (k : ℚ) := by
      rw [hek]
      push_cast
      field_simp
    rw [hq, Int.ceil_intCast, max_eq_right hk]

/-- Witness of C3: check-in and check-out both 2024-01-01 give one night. -/
theorem nights_valid_dates_witness :
    nights (newDate (quietEnv 0) (.str "2024-01-01")) (newDate (quietEnv 0) (.str "2024-01-01"))
      = some 1 :=
  (nights_valid_dates (quietEnv 0)
    (simpleRequest "Asha" "2024-01-01" "2024-01-01" "Deluxe" false false false)
    1704067200000 1704067200000 (by decide!) (by decide!)).2.2.1 (le_refl _)

/-! ## Unmatched room type -/

/-- Counterexample to C4. With room type `Suite` absent from the room types, two
nights, breakfast and pickup, the add-ons amount to 1800 but the stored
totalPrice is 0; a matched `Suite` priced 0 stores 1800. -/
theorem unmatched_roomType_drops_addons :
    (getBookings (bookHandler (quietEnv 1700000000000) (deluxeFS [])
        (simpleRequest "Asha" "2024-03-01" "2024-03-03" "Suite" true true false)).fs).map
        (fun r => r.totalPrice) = [.num (some 0)] ∧
    jsAdd (breakfastCharge (.bool true)
        (nights (newDate (quietEnv 1700000000000) (.str "2024-03-01"))
          (newDate (quietEnv 1700000000000) (.str "2024-03-03"))))
      (pickupCharge (.bool true)) = some 1800 ∧
    (getBookings (bookHandler (quietEnv 1700000000000)
        { bookings := .parsed [], roomTypes := .parsed [{ name := "Suite", price := 0 }],
          generalData := .missing }
        (simpleRequest "Asha" "2024-03-01" "2024-03-03" "Suite" true true false)).fs).map
        (fun r => r.totalPrice) = [.num (some 1800)] := by
  decide!

/-- Claim C4, amended. An accepted submission whose room type matches no room
type is answered with success and appends a record with totalPrice 0, whatever
the add-on flags and dates; when it matches a room type priced 0, with `n`
nights and boolean flags, the stored totalPrice is the add-on total. -/
theorem unmatched_roomType_total_zero (env : Env) (fs : FS) (body : BookRequest)
    (hreq : missingRequired body = false) :
    (selectedType (getRoomTypes fs) body.roomType = none →
      (bookHandler env fs body).response
        = some (.json 200 true .bookingRequestReceived (some env.now)) ∧
      ∃ r : Booking,
        (bookHandler env fs body).fs.bookings = .parsed (getBookings fs ++ [r]) ∧
        r.totalPrice = .num (some 0)) ∧
    (∀ (t : RoomType) (n : ℤ) (breakfast pickup : Bool),
      selectedType (getRoomTypes fs) body.roomType = some t → t.price = 0 →
      nights (newDate env body.checkIn) (newDate env body.checkOut) = some (n : ℚ) →
      body.breakfast = .bool breakfast → body.pickup = .bool pickup →
      ∃ r : Booking,
        (bookHandler env fs body).fs.bookings = .parsed (getBookings fs ++ [r]) ∧
        r.totalPrice = .num (some
          ((if breakfast then (500 : ℚ) * n else 0) + (if pickup then 800 else 0)))) := by
  constructor
  · intro hnone
    rw [bookHandler_accept env fs body hreq]
    refine ⟨by simp [Outcome.response], _, rfl, ?_⟩
    simp [newBooking, totalPrice, hnone]
  · intro t n breakfast pickup ht hp hn hb hk
    rw [bookHandler_accept env fs body hreq]
    refine ⟨_, rfl, ?_⟩
    have key : totalPrice env (getRoomTypes fs) body
        = some ((if breakfast then (500 : ℚ) * n else 0) + (if pickup then 800 else 0)) := by
      have hcast : ((if breakfast then (500 : ℚ) * n else 0) + (if pickup then 800 else 0))
          = (((if breakfast then 500 * n else 0) + (if pickup then 800 else 0) : ℤ) : ℚ) := by
        cases breakfast <;> cases pickup <;> simp
      rw [totalPrice_matched env _ body t n ht hn, hp, hb, hk, hcast, ← mathRound_intCast]
      congr 2
      simp only [JsVal.truthy]
      split_ifs <;> simp
    simp [newBooking, key]

/-- Witness of the amended C4: the unmatched `Suite` request is answered with
success. -/
theorem unmatched_roomType_total_zero_witness :
    (bookHandler (quietEnv 1700000000000) (deluxeFS [])
        (simpleRequest "Asha" "2024-03-01" "2024-03-03" "Suite" true true false)).response
      = some (.json 200 true .bookingRequestReceived (some 1700000000000)) :=
  ((unmatched_roomType_total_zero (quietEnv 1700000000000) (deluxeFS [])
    (simpleRequest "Asha" "2024-03-01" "2024-03-03" "Suite" true true false)
    (by decide)).1 (by decide)).1

/-! ## The created record -/

/-- Counterexample to C5. The record stored for an accepted request has no
`preArrivalEmailSent` key: the field reads `undefined`, not `false`. -/
theorem created_record_flag_absent :
    (getBookings (bookHandler (quietEnv 1700000000000) (deluxeFS [])
        (simpleRequest "Asha" "2024-03-01" "2024-03-03" "Deluxe" true false true)).fs).map
        (fun r => r.preArrivalEmailSent) = [.undefined] ∧
    (getBookings (bookHandler (quietEnv 1700000000000) (deluxeFS [])
        (simpleRequest "Asha" "2024-03-01" "2024-03-03" "Deluxe" true false true)).fs).map
        (fun r => r.preArrivalEmailSent) ≠ [.bool false] := by
  decide!

/-- Claim C5, amended. Every accepted submission appends a record whose status
is `Pending` and whose `preArrivalEmailSent` key is absent (`undefined`, hence
falsy). -/
theorem created_record_pending (env : Env) (fs : FS) (body : BookRequest)
    (hreq : missingRequired body = false) :
    ∃ r : Booking,
      (bookHandler env fs body).fs.bookings = .parsed (getBookings fs ++ [r]) ∧
      r.status = .str "Pending" ∧
      r.preArrivalEmailSent = .undefined ∧
      r.preArrivalEmailSent.truthy = false := by
  rw [bookHandler_accept env fs body hreq]
  exact ⟨_, rfl, rfl, rfl, rfl⟩

/-- Witness of the amended C5 on the Deluxe request. -/
theorem created_record_pending_witness :
    ∃ r : Booking,
      (bookHandler (quietEnv 1700000000000) (deluxeFS [])
        (simpleRequest "Asha" "2024-03-01" "2024-03-03" "Deluxe" true false true)).fs.bookings
        = .parsed (getBookings (deluxeFS []) ++ [r]) ∧
      r.status = .str "Pending" ∧
      r.preArrivalEmailSent = .undefined ∧
      r.preArrivalEmailSent.truthy = false :=
  created_record_pending (quietEnv 1700000000000) (deluxeFS [])
    (simpleRequest "Asha" "2024-03-01" "2024-03-03" "Deluxe" true false true) (by decide)

/-! ## Validation -/

/-- Claim C6. If one of guestName, checkIn, checkOut, roomType is missing
(`undefined` or `null`) or the empty string, the handler answers 400 with
`success = false`, writes nothing, sends nothing, and leaves every data file,
the bookings collection included, as it was. -/
theorem book_rejects_missing_field (env : Env) (fs : FS) (body : BookRequest)
    (v : JsVal)
    (hv : v = body.guestName ∨ v = body.checkIn ∨ v = body.checkOut ∨ v = body.roomType)
    (hmiss : v = .undefined ∨ v = .null ∨ v = .str "") :
    (bookHandler env fs body).response
        = some (.json 400 false .missingRequiredFields none) ∧
    (bookHandler env fs body).fs = fs ∧
    getBookings (bookHandler env fs body).fs = getBookings fs ∧
    (bookHandler env fs body).writes = [] ∧
    (bookHandler env fs body).mails = [] := by
  have hfalsy : v.truthy = false := by
    rcases hmiss with h | h | h <;> subst h <;> rfl
  have hm : missingRequired body = true := by
    rcases hv with h | h | h | h <;> rw [h] at hfalsy <;> simp [missingRequired, hfalsy]
  rw [bookHandler_reject env fs body hm]
  exact ⟨rfl, rfl, rfl, rfl, rfl⟩

/-- Witness of C6: an empty guest name against a store holding one record. -/
theorem book_rejects_missing_field_witness :
    (bookHandler (quietEnv 1700000000000)
        (deluxeFS [newBooking (quietEnv 1690000000000)
          (simpleRequest "Ravi" "2024-02-01" "2024-02-02" "Deluxe" false false false) (some 5000)])
        (simpleRequest "" "2024-03-01" "2024-03-03" "Deluxe" true false true)).response
      = some (.json 400 false .missingRequiredFields none) :=
  (book_rejects_missing_field (quietEnv 1700000000000)
    (deluxeFS [newBooking (quietEnv 1690000000000)
      (simpleRequest "Ravi" "2024-02-01" "2024-02-02" "Deluxe" false false false) (some 5000)])
    (simpleRequest "" "2024-03-01" "2024-03-03" "Deluxe" true false true)
    (.str "") (Or.inl rfl) (Or.inr (Or.inr rfl))).1

/-- Claim C7. When guestName, checkIn, checkOut and roomType are all present
(truthy), the submission is accepted whatever the other fields and whatever the
order of the dates: the response is the success response and exactly one record
is added to the store. -/
theorem book_accepts_when_required_present (env : Env) (fs : FS) (body : BookRequest)
    (hg : body.guestName.truthy = true) (hci : body.checkIn.truthy = true)
    (hco : body.checkOut.truthy = true) (hrt : body.roomType.truthy = true) :
    (bookHandler env fs body).response
        = some (.json 200 true .bookingRequestReceived (some env.now)) ∧
    (∃ r : Booking, getBookings (bookHandler env fs body).fs = getBookings fs ++ [r]) ∧
    (getBookings (bookHandler env fs body).fs).length = (getBookings fs).length + 1 := by
  rw [bookHandler_accept env fs body (missingRequired_eq_false body hg hci hco hrt)]
  refine ⟨?_, ⟨newBooking env body (totalPrice env (getRoomTypes fs) body), ?_⟩, ?_⟩
  · simp [Outcome.response]
  · simp only [getBookings, readJSON, Option.getD_some]
  · simp [getBookings, readJSON]

/-- Witness of C7: check-out before check-in, adults a negative number,
children not a number, room type unknown. -/
theorem book_accepts_when_required_present_witness :
    (bookHandler (quietEnv 1700000000000) (deluxeFS [])
        { simpleRequest "Asha" "2024-03-05" "2024-03-01" "Nowhere" false false false with
          adults := .num (some (-2)), children := .str "many" }).response
      = some (.json 200 true .bookingRequestReceived (some 1700000000000)) :=
  (book_accepts_when_required_present (quietEnv 1700000000000) (deluxeFS [])
    { simpleRequest "Asha" "2024-03-05" "2024-03-01" "Nowhere" false false false with
      adults := .num (some (-2)), children := .str "many" }
    (by decide) (by decide) (by decide) (by decide)).1

/-! ## Effect of a submission on the store -/

/-- Claim C8. An accepted submission turns the bookings collection `B` into `B`
followed by one new record, and the `bookingId` of the response is the id of
that record; the other data files are untouched and the collection written is
the new one. -/
theorem book_appends_one_record (env : Env) (fs : FS) (body : BookRequest)
    (hreq : missingRequired body = false) :
    ∃ r : Booking,
      getBookings (bookHandler env fs body).fs = getBookings fs ++ [r] ∧
      (bookHandler env fs body).response
        = some (.json 200 true .bookingRequestReceived (some r.id)) ∧
      (bookHandler env fs body).writes = [getBookings fs ++ [r]] ∧
      (bookHandler env fs body).fs.roomTypes = fs.roomTypes ∧
      (bookHandler env fs body).fs.generalData = fs.generalData := by
  rw [bookHandler_accept env fs body hreq]
  refine ⟨newBooking env body (totalPrice env (getRoomTypes fs) body), ?_, ?_, ?_, rfl, rfl⟩
  · simp [getBookings, readJSON]
  · simp [Outcome.response, newBooking]
  · simp only [Outcome.writes, backgroundMails]
    split_ifs <;> simp

/-- Witness of C8: a submission against a store holding one record. -/
theorem book_appends_one_record_witness :
    ∃ r : Booking,
      getBookings (bookHandler (quietEnv 1700000000000)
        (deluxeFS [newBooking (quietEnv 1690000000000)
          (simpleRequest "Ravi" "2024-02-01" "2024-02-02" "Deluxe" false false false) (some 5000)])
        (simpleRequest "Asha" "2024-03-01" "2024-03-03" "Deluxe" true false true)).fs
        = [newBooking (quietEnv 1690000000000)
          (simpleRequest "Ravi" "2024-02-01" "2024-02-02" "Deluxe" false false false) (some 5000)]
          ++ [r] := by
  obtain ⟨r, h, _⟩ := book_appends_one_record (quietEnv 1700000000000)
    (deluxeFS [newBooking (quietEnv 1690000000000)
      (simpleRequest "Ravi" "2024-02-01" "2024-02-02" "Deluxe" false false false) (some 5000)])
    (simpleRequest "Asha" "2024-03-01" "2024-03-03" "Deluxe" true false true) (by decide)
  exact ⟨r, h⟩

/-! ## Uniqueness of ids -/

theorem ids_bookHandler (env : Env) (fs : FS) (body : BookRequest) :
    ids (getBookings (bookHandler env fs body).fs)
      = ids (getBookings fs) ++ (if missingRequired body then [] else [env.now]) := by
  cases h : missingRequired body
  · rw [bookHandler_accept env fs body h]
    simp [ids, getBookings, readJSON, newBooking]
  · rw [bookHandler_reject env fs body h]
    simp

theorem ids_submitAll (reqs : List (Env × BookRequest)) (fs : FS) :
    ids (getBookings (submitAll fs reqs))
      = ids (getBookings fs)
        ++ ((reqs.filter (fun x => !missingRequired x.2)).map (fun x => x.1.now)) := by
  induction reqs generalizing fs with
  | nil => simp [submitAll]
  | cons x rest ih =>
    rw [submitAll, ih, ids_bookHandler]
    cases h : missingRequired x.2 <;> simp [List.filter_cons, h]

/-- Counterexample to C9. Two accepted submissions handled at the same clock
value leave two records with the same id in a store that started empty. -/
theorem same_millisecond_duplicate_id :
    ids (getBookings (submitAll (deluxeFS [])
      [(quietEnv 1700000000000,
          simpleRequest "Asha" "2024-03-01" "2024-03-03" "Deluxe" true false true),
       (quietEnv 1700000000000,
          simpleRequest "Ravi" "2024-04-01" "2024-04-02" "Deluxe" false false false)]))
      = [1700000000000, 1700000000000] ∧
    (ids (getBookings (deluxeFS []))).Nodup ∧
    ¬ (ids (getBookings (submitAll (deluxeFS [])
      [(quietEnv 1700000000000,
          simpleRequest "Asha" "2024-03-01" "2024-03-03" "Deluxe" true false true),
       (quietEnv 1700000000000,
          simpleRequest "Ravi" "2024-04-01" "2024-04-02" "Deluxe" false false false)]))).Nodup := by
  have h : ids (getBookings (submitAll (deluxeFS [])
      [(quietEnv 1700000000000,
          simpleRequest "Asha" "2024-03-01" "2024-03-03" "Deluxe" true false true),
       (quietEnv 1700000000000,
          simpleRequest "Ravi" "2024-04-01" "2024-04-02" "Deluxe" false false false)]))
      = [1700000000000, 1700000000000] := by
    rw [ids_submitAll]
    decide
  refine ⟨h, by decide, ?_⟩
  rw [h]
  decide

/-- Claim C9, amended. If the ids in the store together with the clock values
of the submissions are pairwise distinct, then after the whole run of
submissions the ids in the store are pairwise distinct. -/
theorem ids_nodup_of_distinct_clock (fs : FS) (reqs : List (Env × BookRequest))
    (hclock : (ids (getBookings fs) ++ reqs.map (fun x => x.1.now)).Nodup) :
    (ids (getBookings (submitAll fs reqs))).Nodup := by
  rw [ids_submitAll]
  refine hclock.sublist ?_
  exact List.Sublist.append (List.Sublist.refl _) ((List.filter_sublist _).map _)

/-- Witness of the amended C9: two submissions one millisecond apart. -/
theorem ids_nodup_of_distinct_clock_witness :
    (ids (getBookings (submitAll (deluxeFS [])
      [(quietEnv 1700000000000,
          simpleRequest "Asha" "2024-03-01" "2024-03-03" "Deluxe" true false true),
       (quietEnv 1700000000001,
          simpleRequest "Ravi" "2024-04-01" "2024-04-02" "Deluxe" false false false)]))).Nodup :=
  ids_nodup_of_distinct_clock (deluxeFS [])
    [(quietEnv 1700000000000,
        simpleRequest "Asha" "2024-03-01" "2024-03-03" "Deluxe" true false true),
     (quietEnv 1700000000001,
        simpleRequest "Ravi" "2024-04-01" "2024-04-02" "Deluxe" false false false)]
    (by decide)

/-! ## Unknown booking id -/

theorem find?_none_of_forall {α : Type} (p : α → Bool) (l : List α)
    (h : ∀ b ∈ l, p b = false) : l.find? p = none := by
  rw [List.find?_eq_none]
  intro b hb
  simp [h b hb]

theorem updateBookingStatus_unknown (env : Env) (fs : FS) (req : StatusRequest)
    (h : ∀ b ∈ getBookings fs, looseEq env b.id req.bookingId = false) :
    updateBookingStatus env fs req
      = { fs := fs
          events := [.respond (if acceptsJson req.accept
            then .json 404 false .bookingNotFound none
            else .redirect "/admin/settings?tab=bookings&msg=Error: Booking Not Found")] } := by
  simp only [updateBookingStatus, find?_none_of_forall _ _ h]

theorem confirmBooking_unknown (env : Env) (fs : FS) (req : ConfirmRequest)
    (h : ∀ b ∈ getBookings fs, looseEq env b.id (.str req.id) = false) :
    confirmBooking env fs req
      = { fs := fs, events := [.respond (.json 404 false .bookingNotFound none)] } := by
  simp only [confirmBooking, find?_none_of_forall _ _ h]

/-- Counterexample to C10. The confirm endpoint, called without a JSON `Accept`
header for an id that matches no record, answers with the JSON 404 body and not
with a redirect. -/
theorem confirm_unknown_never_redirects :
    acceptsJson (some "text/html") = false ∧
    (∀ b ∈ getBookings oneBookingFS, looseEq (quietEnv 1700000000000) b.id (.str "42") = false) ∧
    (confirmBooking (quietEnv 1700000000000) oneBookingFS
        { id := "42", accept := some "text/html" }).response
      = some (.json 404 false .bookingNotFound none) ∧
    ∀ location : String,
      (confirmBooking (quietEnv 1700000000000) oneBookingFS
        { id := "42", accept := some "text/html" }).response
      ≠ some (.redirect location) := by
  have hno : ∀ b ∈ getBookings oneBookingFS,
      looseEq (quietEnv 1700000000000) b.id (.str "42") = false := by decide!
  refine ⟨by decide, hno, ?_, ?_⟩
  · rw [confirmBooking_unknown _ _ _ hno]
    rfl
  · intro location
    rw [confirmBooking_unknown _ _ _ hno]
    simp [Outcome.response]

/-- Claim C10, amended. For a bookingId that matches no record, the
status-change action answers 404 to a JSON caller and redirects to the
"Booking Not Found" page otherwise, the confirm endpoint answers 404 (JSON) to
every caller, and both send no mail, write nothing and leave the data files
unchanged. -/
theorem unknown_id_not_found (env : Env) (fs : FS) (sreq : StatusRequest)
    (creq : ConfirmRequest)
    (hs : ∀ b ∈ getBookings fs, looseEq env b.id sreq.bookingId = false)
    (hc : ∀ b ∈ getBookings fs, looseEq env b.id (.str creq.id) = false) :
    ((updateBookingStatus env fs sreq).response
        = some (if acceptsJson sreq.accept
            then .json 404 false .bookingNotFound none
            else .redirect "/admin/settings?tab=bookings&msg=Error: Booking Not Found") ∧
      (updateBookingStatus env fs sreq).mails = [] ∧
      (updateBookingStatus env fs sreq).writes = [] ∧
      (updateBookingStatus env fs sreq).fs = fs) ∧
    ((confirmBooking env fs creq).response = some (.json 404 false .bookingNotFound none) ∧
      (confirmBooking env fs creq).mails = [] ∧
      (confirmBooking env fs creq).writes = [] ∧
      (confirmBooking env fs creq).fs = fs) := by
  rw [updateBookingStatus_unknown env fs sreq hs, confirmBooking_unknown env fs creq hc]
  exact ⟨⟨rfl, rfl, rfl, rfl⟩, rfl, rfl, rfl, rfl⟩

/-- Witness of the amended C10: id 42 against a store whose only record has id
`1690000000000`, with a JSON caller of the status-change action. -/
theorem unknown_id_not_found_witness :
    (updateBookingStatus (quietEnv 1700000000000) oneBookingFS
        { bookingId := .str "42", status := .str "Cancelled",
          accept := some "application/json" }).response
      = some (.json 404 false .bookingNotFound none) ∧
    (confirmBooking (quietEnv 1700000000000) oneBookingFS
        { id := "42", accept := none }).fs = oneBookingFS := by
  have h := unknown_id_not_found (quietEnv 1700000000000) oneBookingFS
    { bookingId := .str "42", status := .str "Cancelled", accept := some "application/json" }
    { id := "42", accept := none } (by decide!) (by decide!)
  exact ⟨h.1.1, h.2.2.2.2⟩

/-! ## Status changes on an existing booking -/

theorem setStatus_length (p : Booking → Bool) (st : JsVal) (l : List Booking) :
    (setStatus p st l).length = l.length := by
  induction l with
  | nil => rfl
  | cons b bs ih =>
    simp only [setStatus]
    split_ifs <;> simp [ih]

theorem setStatus_ids (p : Booking → Bool) (st : JsVal) (l : List Booking) :
    ids (setStatus p st l) = ids l := by
  induction l with
  | nil => rfl
  | cons b bs ih =>
    simp only [setStatus]
    split_ifs
    · simp [ids]
    · simp only [ids, List.map_cons] at ih ⊢
      rw [ih]

theorem setStatus_split (p : Booking → Bool) (st : JsVal) (l : List Booking) (b : Booking)
    (h : l.find? p = some b) :
    ∃ pre post, l = pre ++ b :: post ∧ (∀ x ∈ pre, p x = false) ∧ p b = true ∧
      setStatus p st l = pre ++ { b with status := st } :: post := by
  induction l with
  | nil => simp at h
  | cons c cs ih =>
    cases hc : p c
    · rw [List.find?_cons_of_neg _ (by simp [hc])] at h
      obtain ⟨pre, post, h1, h2, h3, h4⟩ := ih h
      refine ⟨c :: pre, post, by simp [h1], ?_, h3, ?_⟩
      · intro x hx
        rcases List.mem_cons.mp hx with hx | hx
        · rw [hx]; exact hc
        · exact h2 x hx
      · simp only [setStatus, hc, Bool.false_eq_true, if_false, h4, List.cons_append]
    · rw [List.find?_cons_of_pos _ hc] at h
      cases h
      exact ⟨[], cs, rfl, by simp, hc, by simp [setStatus, hc]⟩

theorem setStatus_at_first (p : Booking → Bool) (st : JsVal) (pre : List Booking) (b : Booking)
    (post : List Booking) (hpre : ∀ x ∈ pre, p x = false) (hb : p b = true) :
    setStatus p st (pre ++ b :: post) = pre ++ { b with status := st } :: post := by
  induction pre with
  | nil => simp [setStatus, hb]
  | cons c cs ih =>
    have hc : p c = false := hpre c (by simp)
    have ih1 := ih (fun x hx => hpre x (by simp [hx]))
    simp only [List.cons_append, setStatus, hc, Bool.false_eq_true, if_false]
    exact congrArg (List.cons c) ih1

theorem find?_at_first (p : Booking → Bool) (pre : List Booking) (b : Booking)
    (post : List Booking) (hpre : ∀ x ∈ pre, p x = false) (hb : p b = true) :
    (pre ++ b :: post).find? p = some b := by
  induction pre with
  | nil => simp [hb]
  | cons c cs ih =>
    have hc : p c = false := hpre c (by simp)
    rw [List.cons_append, List.find?_cons_of_neg _ (by simp [hc])]
    exact ih (fun x hx => hpre x (by simp [hx]))

theorem updateBookingStatus_found (env : Env) (fs : FS) (req : StatusRequest) (b : Booking)
    (h : (getBookings fs).find? (fun x => looseEq env x.id req.bookingId) = some b) :
    updateBookingStatus env fs req
      = { fs := { fs with
                bookings := .parsed (setStatus (fun x => looseEq env x.id req.bookingId)
                  req.status (getBookings fs)) }
          events := [.write
              (setStatus (fun x => looseEq env x.id req.bookingId) req.status (getBookings fs))]
            ++ (if decide (req.status = .str "Cancelled") && b.email.truthy && env.mailConfigured
                then [.send { kind := .cancelMailOptions, recipient := b.email, bookingId := b.id }
                  (env.sendMail
                    { kind := .cancelMailOptions, recipient := b.email, bookingId := b.id })]
                else [])
            ++ [.respond (if acceptsJson req.accept
                then .json 200 true (.statusUpdatedTo req.status) none
                else .redirect "/admin/settings?tab=bookings&msg=Booking Updated")] } := by
  simp only [updateBookingStatus, h, writeJSON]

theorem confirmBooking_found (env : Env) (fs : FS) (req : ConfirmRequest) (b : Booking)
    (h : (getBookings fs).find? (fun x => looseEq env x.id (.str req.id)) = some b) :
    confirmBooking env fs req
      = { fs := { fs with
                bookings := .parsed (setStatus (fun x => looseEq env x.id (.str req.id))
                  (.str "Confirmed") (getBookings fs)) }
          events := (if env.mailConfigured && b.email.truthy
                then [.send { kind := .guestMailOptions, recipient := b.email, bookingId := b.id }
                  (env.sendMail
                    { kind := .guestMailOptions, recipient := b.email, bookingId := b.id })]
                else [])
            ++ [.write (setStatus (fun x => looseEq env x.id (.str req.id)) (.str "Confirmed")
                  (getBookings fs)),
                .respond (.json 200 true .bookingConfirmedSuccessfully none)] } := by
  simp only [confirmBooking, h, writeJSON]

theorem getBookings_parsed (fs : FS) (l : List Booking) :
    getBookings { fs with bookings := .parsed l } = l := rfl

theorem response_append_respond (fs0 : FS) (es : List Event) (r : Response)
    (h : ∀ e ∈ es, ∀ r0, e ≠ .respond r0) (tail : List Event) :
    Outcome.response { fs := fs0, events := es ++ .respond r :: tail } = some r := by
  induction es with
  | nil => simp [Outcome.response]
  | cons e es ih =>
    have he := h e (by simp)
    have ih1 := ih (fun x hx => h x (by simp [hx]))
    cases e with
    | respond r0 => exact absurd rfl (he r0)
    | write d => simpa [Outcome.response] using ih1
    | send m ok => simpa [Outcome.response] using ih1

theorem updateBookingStatus_response (env : Env) (fs : FS) (req : StatusRequest) (b : Booking)
    (h : (getBookings fs).find? (fun x => looseEq env x.id req.bookingId) = some b) :
    (updateBookingStatus env fs req).response
      = some (if acceptsJson req.accept
          then .json 200 true (.statusUpdatedTo req.status) none
          else .redirect "/admin/settings?tab=bookings&msg=Booking Updated") := by
  rw [updateBookingStatus_found env fs req b h]
  apply response_append_respond
  intro e he r0
  rcases List.mem_append.mp he with he | he
  · rw [List.mem_singleton.mp he]; simp
  · split_ifs at he
    · rw [List.mem_singleton.mp he]; simp
    · simp at he

theorem setStatus_twice (p : Booking → Bool) (st : JsVal) (l : List Booking) (b : Booking)
    (hp : ∀ (x : Booking) (s : JsVal), p { x with status := s } = p x)
    (h : l.find? p = some b) :
    (setStatus p st l).find? p = some { b with status := st } ∧
    setStatus p st (setStatus p st l) = setStatus p st l := by
  obtain ⟨pre, post, _, hpre, hb, hset⟩ := setStatus_split p st l b h
  have hb1 : p { b with status := st } = true := by rw [hp]; exact hb
  rw [hset]
  exact ⟨find?_at_first p pre _ post hpre hb1, setStatus_at_first p st pre _ post hpre hb1⟩

theorem setStatus_same (p : Booking → Bool) (st : JsVal) (l : List Booking) (b : Booking)
    (h : l.find? p = some b) (hst : b.status = st) :
    setStatus p st l = l := by
  obtain ⟨pre, post, hl, _, _, hset⟩ := setStatus_split p st l b h
  rw [hset, hl]
  congr 2
  rw [← hst]

theorem status_change_found_status (env : Env) (fs : FS) (req : StatusRequest) (b : Booking)
    (h : (getBookings fs).find? (fun x => looseEq env x.id req.bookingId) = some b) :
    (getBookings (updateBookingStatus env fs req).fs).find?
        (fun x => looseEq env x.id req.bookingId) = some { b with status := req.status } := by
  rw [updateBookingStatus_found env fs req b h, getBookings_parsed]
  exact (setStatus_twice (fun x => looseEq env x.id req.bookingId) req.status
    (getBookings fs) b (fun _ _ => rfl) h).1

/-- Claim C11. The status-change action on an existing booking reports success
and gives the booking found for the id the requested status, whatever its
current status and whatever the requested value; every other record is
untouched; applying the same request a second time leaves the data directory
as the first application left it, with the same response. -/
theorem status_change_sets_requested (env : Env) (fs : FS) (req : StatusRequest) (b : Booking)
    (h : (getBookings fs).find? (fun x => looseEq env x.id req.bookingId) = some b) :
    (updateBookingStatus env fs req).response
      = some (if acceptsJson req.accept
          then .json 200 true (.statusUpdatedTo req.status) none
          else .redirect "/admin/settings?tab=bookings&msg=Booking Updated") ∧
    (∃ pre post, getBookings fs = pre ++ b :: post ∧
      (∀ x ∈ pre, looseEq env x.id req.bookingId = false) ∧
      getBookings (updateBookingStatus env fs req).fs
        = pre ++ { b with status := req.status } :: post) ∧
    (getBookings (updateBookingStatus env fs req).fs).find?
        (fun x => looseEq env x.id req.bookingId) = some { b with status := req.status } ∧
    (updateBookingStatus env (updateBookingStatus env fs req).fs req).fs
      = (updateBookingStatus env fs req).fs ∧
    (updateBookingStatus env (updateBookingStatus env fs req).fs req).response
      = (updateBookingStatus env fs req).response := by
  have hresp := updateBookingStatus_response env fs req b h
  obtain ⟨pre, post, hl, hpre, _, hset⟩ :=
    setStatus_split (fun x => looseEq env x.id req.bookingId) req.status (getBookings fs) b h
  obtain ⟨hfind2, hidem⟩ :=
    setStatus_twice (fun x => looseEq env x.id req.bookingId) req.status (getBookings fs) b
      (fun _ _ => rfl) h
  have hfs : (updateBookingStatus env fs req).fs = { fs with
      bookings := .parsed (setStatus (fun x => looseEq env x.id req.bookingId)
        req.status (getBookings fs)) } := by
    rw [updateBookingStatus_found env fs req b h]
  have hfind3 : (getBookings (updateBookingStatus env fs req).fs).find?
      (fun x => looseEq env x.id req.bookingId) = some { b with status := req.status } := by
    rw [hfs, getBookings_parsed]
    exact hfind2
  refine ⟨hresp, ⟨pre, post, hl, hpre, ?_⟩, hfind3, ?_, ?_⟩
  · rw [hfs, getBookings_parsed, hset]
  · rw [updateBookingStatus_found env _ req _ hfind3, hfs, getBookings_parsed, hidem]
  · rw [updateBookingStatus_response env _ req _ hfind3, hresp]

/-- Witness of C11: a Cancelled booking is set back to Pending. -/
theorem status_change_sets_requested_witness :
    (getBookings (updateBookingStatus (quietEnv 1700000000000) (twoBookingFS "Cancelled")
        { bookingId := .str "1690000000001", status := .str "Pending",
          accept := some "application/json" }).fs).find?
        (fun x => looseEq (quietEnv 1700000000000) x.id (.str "1690000000001"))
      = some { meera "Cancelled" with status := .str "Pending" } :=
  (status_change_sets_requested (quietEnv 1700000000000) (twoBookingFS "Cancelled")
    { bookingId := .str "1690000000001", status := .str "Pending",
      accept := some "application/json" } (meera "Cancelled") (by decide!)).2.2.1

theorem confirmBooking_fs (env : Env) (fs : FS) (req : ConfirmRequest) (b : Booking)
    (h : (getBookings fs).find? (fun x => looseEq env x.id (.str req.id)) = some b) :
    (confirmBooking env fs req).fs = { fs with
      bookings := .parsed (setStatus (fun x => looseEq env x.id (.str req.id))
        (.str "Confirmed") (getBookings fs)) } := by
  rw [confirmBooking_found env fs req b h]

theorem confirmBooking_response (env : Env) (fs : FS) (req : ConfirmRequest) (b : Booking)
    (h : (getBookings fs).find? (fun x => looseEq env x.id (.str req.id)) = some b) :
    (confirmBooking env fs req).response
      = some (.json 200 true .bookingConfirmedSuccessfully none) := by
  rw [confirmBooking_found env fs req b h]
  rw [show ([Event.write (setStatus (fun x => looseEq env x.id (.str req.id)) (.str "Confirmed")
        (getBookings fs)), Event.respond (.json 200 true .bookingConfirmedSuccessfully none)]
      : List Event)
    = [Event.write (setStatus (fun x => looseEq env x.id (.str req.id)) (.str "Confirmed")
        (getBookings fs))] ++ [Event.respond (.json 200 true .bookingConfirmedSuccessfully none)]
    from rfl, ← List.append_assoc]
  apply response_append_respond
  intro e he r0
  rcases List.mem_append.mp he with he | he
  · split_ifs at he
    · rw [List.mem_singleton.mp he]; simp
    · simp at he
  · rw [List.mem_singleton.mp he]; simp

/-- Claim C12. Confirming a booking that the store already holds as Confirmed
leaves the stored collection as it was, so the record keeps its totalPrice,
name, phone, e-mail address and status Confirmed; and for any existing
booking a second confirm leaves the data directory as the first one left it. -/
theorem confirm_idempotent (env : Env) (fs : FS) (req : ConfirmRequest) (b : Booking)
    (h : (getBookings fs).find? (fun x => looseEq env x.id (.str req.id)) = some b)
    (hconf : b.status = .str "Confirmed") :
    getBookings (confirmBooking env fs req).fs = getBookings fs ∧
    (∃ b1, (getBookings (confirmBooking env fs req).fs).find?
        (fun x => looseEq env x.id (.str req.id)) = some b1 ∧
      b1.totalPrice = b.totalPrice ∧ b1.guestName = b.guestName ∧ b1.name = b.name ∧
      b1.phone = b.phone ∧ b1.email = b.email ∧ b1.status = .str "Confirmed") ∧
    (confirmBooking env (confirmBooking env fs req).fs req).fs = (confirmBooking env fs req).fs ∧
    getBookings (confirmBooking env (confirmBooking env fs req).fs req).fs
      = getBookings (confirmBooking env fs req).fs ∧
    (confirmBooking env (confirmBooking env fs req).fs req).response
      = some (.json 200 true .bookingConfirmedSuccessfully none) := by
  have hsame := setStatus_same (fun x => looseEq env x.id (.str req.id)) (.str "Confirmed")
    (getBookings fs) b h hconf
  have hget : getBookings (confirmBooking env fs req).fs = getBookings fs := by
    rw [confirmBooking_fs env fs req b h, getBookings_parsed, hsame]
  have hfind2 : (getBookings (confirmBooking env fs req).fs).find?
      (fun x => looseEq env x.id (.str req.id)) = some b := by rw [hget, h]
  have hfs2 : (confirmBooking env (confirmBooking env fs req).fs req).fs
      = (confirmBooking env fs req).fs := by
    rw [confirmBooking_fs env _ req b hfind2, hget, hsame, confirmBooking_fs env fs req b h, hsame]
  refine ⟨hget, ⟨b, hfind2, rfl, rfl, rfl, rfl, rfl, hconf⟩, hfs2, by rw [hfs2], ?_⟩
  exact confirmBooking_response env _ req b hfind2

/-- Witness of C12: confirming the already Confirmed booking of `meera`. -/
theorem confirm_idempotent_witness :
    getBookings (confirmBooking (mailEnv 1700000000000 true) (twoBookingFS "Confirmed")
        { id := "1690000000001", accept := none }).fs
      = getBookings (twoBookingFS "Confirmed") :=
  (confirm_idempotent (mailEnv 1700000000000 true) (twoBookingFS "Confirmed")
    { id := "1690000000001", accept := none } (meera "Confirmed") (by decide!) rfl).1

/-- Claim C13. The status-change action with status Cancelled on an existing
booking deletes nothing: the collection keeps its length, its ids in the same
order, and every record except the one found for the id, which differs from
its old value in the status only. -/
theorem cancel_keeps_records (env : Env) (fs : FS) (req : StatusRequest) (b : Booking)
    (h : (getBookings fs).find? (fun x => looseEq env x.id req.bookingId) = some b)
    (hst : req.status = .str "Cancelled") :
    (getBookings (updateBookingStatus env fs req).fs).length = (getBookings fs).length ∧
    ids (getBookings (updateBookingStatus env fs req).fs) = ids (getBookings fs) ∧
    ∃ pre post, getBookings fs = pre ++ b :: post ∧
      getBookings (updateBookingStatus env fs req).fs
        = pre ++ { b with status := .str "Cancelled" } :: post := by
  have hfs : getBookings (updateBookingStatus env fs req).fs
      = setStatus (fun x => looseEq env x.id req.bookingId) req.status (getBookings fs) := by
    rw [updateBookingStatus_found env fs req b h]
    rfl
  obtain ⟨pre, post, hl, _, _, hset⟩ :=
    setStatus_split (fun x => looseEq env x.id req.bookingId) req.status (getBookings fs) b h
  refine ⟨by rw [hfs, setStatus_length], by rw [hfs, setStatus_ids], pre, post, hl, ?_⟩
  rw [hfs, hset, hst]

/-- Witness of C13: cancelling the Pending booking of `meera`. -/
theorem cancel_keeps_records_witness :
    ids (getBookings (updateBookingStatus (quietEnv 1700000000000) (twoBookingFS "Pending")
        { bookingId := .str "1690000000001", status := .str "Cancelled", accept := none }).fs)
      = ids (getBookings (twoBookingFS "Pending")) :=
  (cancel_keeps_records (quietEnv 1700000000000) (twoBookingFS "Pending")
    { bookingId := .str "1690000000001", status := .str "Cancelled", accept := none }
    (meera "Pending") (by decide!) rfl).2.1

/-! ## The total price after creation -/

theorem setStatus_totalPrice (p : Booking → Bool) (st : JsVal) (l : List Booking) :
    (setStatus p st l).map (fun b => b.totalPrice) = l.map (fun b => b.totalPrice) := by
  induction l with
  | nil => rfl
  | cons b bs ih =>
    simp only [setStatus]
    split_ifs
    · simp
    · simp only [List.map_cons, ih]

theorem sweepLoop_totalPrice (env : Env) (tomorrowStr : String) (l : List Booking) :
    (sweepLoop env tomorrowStr l).bookings.map (fun b => b.totalPrice)
      = l.map (fun b => b.totalPrice) := by
  induction l with
  | nil => rfl
  | cons b bs ih =>
    simp only [sweepLoop]
    split_ifs <;> simp only [List.map_cons, ih]

theorem updateBookingStatus_bookings (env : Env) (fs : FS) (req : StatusRequest) :
    getBookings (updateBookingStatus env fs req).fs = getBookings fs ∨
    getBookings (updateBookingStatus env fs req).fs
      = setStatus (fun x => looseEq env x.id req.bookingId) req.status (getBookings fs) := by
  cases h : (getBookings fs).find? (fun x => looseEq env x.id req.bookingId) with
  | none =>
    left
    rw [updateBookingStatus_unknown env fs req
      (fun b hb => by simpa using List.find?_eq_none.mp h b hb)]
  | some b =>
    right
    rw [updateBookingStatus_found env fs req b h]
    rfl

theorem confirmBooking_bookings (env : Env) (fs : FS) (req : ConfirmRequest) :
    getBookings (confirmBooking env fs req).fs = getBookings fs ∨
    getBookings (confirmBooking env fs req).fs
      = setStatus (fun x => looseEq env x.id (.str req.id)) (.str "Confirmed")
          (getBookings fs) := by
  cases h : (getBookings fs).find? (fun x => looseEq env x.id (.str req.id)) with
  | none =>
    left
    rw [confirmBooking_unknown env fs req
      (fun b hb => by simpa using List.find?_eq_none.mp h b hb)]
  | some b =>
    right
    rw [confirmBooking_found env fs req b h]
    rfl

theorem sendPreArrivalEmails_bookings (env : Env) (tomorrowStr : String) (fs : FS) :
    getBookings (sendPreArrivalEmails env tomorrowStr fs).fs = getBookings fs ∨
    getBookings (sendPreArrivalEmails env tomorrowStr fs).fs
      = (sweepLoop env tomorrowStr (getBookings fs)).bookings := by
  simp only [sendPreArrivalEmails]
  split_ifs
  · right; rfl
  · left; rfl

/-- Claim C14. The status-change action, the confirm endpoint and the reminder
sweep each leave the totalPrice of every stored record as it was, record by
record and in order, whatever the room types file holds. -/
theorem totalPrice_never_recomputed (env : Env) (fs : FS) (sreq : StatusRequest)
    (creq : ConfirmRequest) (tomorrowStr : String) :
    (getBookings (updateBookingStatus env fs sreq).fs).map (fun b => b.totalPrice)
      = (getBookings fs).map (fun b => b.totalPrice) ∧
    (getBookings (confirmBooking env fs creq).fs).map (fun b => b.totalPrice)
      = (getBookings fs).map (fun b => b.totalPrice) ∧
    (getBookings (sendPreArrivalEmails env tomorrowStr fs).fs).map (fun b => b.totalPrice)
      = (getBookings fs).map (fun b => b.totalPrice) := by
  refine ⟨?_, ?_, ?_⟩
  · rcases updateBookingStatus_bookings env fs sreq with h | h <;> rw [h]
    exact setStatus_totalPrice _ _ _
  · rcases confirmBooking_bookings env fs creq with h | h <;> rw [h]
    exact setStatus_totalPrice _ _ _
  · rcases sendPreArrivalEmails_bookings env tomorrowStr fs with h | h <;> rw [h]
    exact sweepLoop_totalPrice _ _ _

/-! ## Clear all -/

/-- Claim C15. Whatever the bookings file held, after the clear-all action
`getBookings` returns the empty collection; the action answers success and its
single write is the empty collection. -/
theorem clearAll_then_read_empty (fs : FS) :
    getBookings (clearAllBookings fs).fs = [] ∧
    (clearAllBookings fs).response = some (.json 200 true .allBookingRecordsCleared none) ∧
    (clearAllBookings fs).writes = [[]] := by
  exact ⟨rfl, rfl, rfl⟩

/-! ## The reminder sweep -/

theorem sweepLoop_events (env : Env) (tomorrowStr : String) (l : List Booking) :
    (sweepLoop env tomorrowStr l).events
      = if env.mailConfigured then
          (l.filter (eligible tomorrowStr)).map
            (fun b => Event.send (welcomeMail b) (env.sendMail (welcomeMail b)))
        else [] := by
  induction l with
  | nil => simp [sweepLoop]
  | cons b bs ih =>
    rcases Bool.eq_false_or_eq_true (dueTomorrow tomorrowStr b) with hd | hd <;>
      rcases Bool.eq_false_or_eq_true env.mailConfigured with hc | hc <;>
      rcases Bool.eq_false_or_eq_true b.email.truthy with he | he <;>
      rcases Bool.eq_false_or_eq_true (env.sendMail (welcomeMail b)) with hs | hs <;>
      simp [sweepLoop, List.filter_cons, eligible, hd, hc, he, hs, ih]

theorem sweepLoop_bookings (env : Env) (tomorrowStr : String) (l : List Booking) :
    (sweepLoop env tomorrowStr l).bookings
      = l.map (fun b =>
          if eligible tomorrowStr b && env.mailConfigured && env.sendMail (welcomeMail b)
          then { b with preArrivalEmailSent := .bool true } else b) := by
  induction l with
  | nil => simp [sweepLoop]
  | cons b bs ih =>
    rcases Bool.eq_false_or_eq_true (dueTomorrow tomorrowStr b) with hd | hd <;>
      rcases Bool.eq_false_or_eq_true env.mailConfigured with hc | hc <;>
      rcases Bool.eq_false_or_eq_true b.email.truthy with he | he <;>
      rcases Bool.eq_false_or_eq_true (env.sendMail (welcomeMail b)) with hs | hs <;>
      simp [sweepLoop, List.filter_cons, eligible, hd, hc, he, hs, ih]

theorem sweepLoop_sentCount (env : Env) (tomorrowStr : String) (l : List Booking) :
    (sweepLoop env tomorrowStr l).sentCount
      = (l.filter (fun b =>
          eligible tomorrowStr b && env.mailConfigured && env.sendMail (welcomeMail b))).length := by
  induction l with
  | nil => simp [sweepLoop]
  | cons b bs ih =>
    rcases Bool.eq_false_or_eq_true (dueTomorrow tomorrowStr b) with hd | hd <;>
      rcases Bool.eq_false_or_eq_true env.mailConfigured with hc | hc <;>
      rcases Bool.eq_false_or_eq_true b.email.truthy with he | he <;>
      rcases Bool.eq_false_or_eq_true (env.sendMail (welcomeMail b)) with hs | hs <;>
      simp [sweepLoop, List.filter_cons, eligible, hd, hc, he, hs, ih]

theorem sweepLoop_idle (env : Env) (tomorrowStr : String) (l : List Booking)
    (h : ∀ b ∈ l, eligible tomorrowStr b = false ∨ env.mailConfigured = false) :
    sweepLoop env tomorrowStr l = { bookings := l, events := [], sentCount := 0 } := by
  induction l with
  | nil => rfl
  | cons b bs ih =>
    have ih1 := ih (fun x hx => h x (by simp [hx]))
    have hb := h b (by simp)
    simp only [eligible] at hb
    rcases Bool.eq_false_or_eq_true (dueTomorrow tomorrowStr b) with hd | hd <;>
      rcases Bool.eq_false_or_eq_true env.mailConfigured with hc | hc <;>
      rcases Bool.eq_false_or_eq_true b.email.truthy with he | he <;>
      simp [sweepLoop, hd, hc, he, ih1] at hb ⊢

theorem sendPreArrivalEmails_idle (env : Env) (tomorrowStr : String) (fs : FS)
    (h : ∀ b ∈ getBookings fs, eligible tomorrowStr b = false ∨ env.mailConfigured = false) :
    sendPreArrivalEmails env tomorrowStr fs = { fs := fs, events := [] } := by
  simp [sendPreArrivalEmails, sweepLoop_idle env tomorrowStr _ h]

theorem mails_of_sends (fs : FS) (l : List Booking) (f : Booking → Bool) (tail : List Event)
    (htail : ∀ e ∈ tail, ∀ m ok, e ≠ .send m ok) :
    Outcome.mails { fs := fs, events := l.map (fun b => Event.send (welcomeMail b) (f b)) ++ tail }
      = l.map welcomeMail := by
  induction l with
  | nil =>
    simp only [Outcome.mails, List.map_nil, List.nil_append]
    rw [List.filterMap_eq_nil_iff]
    intro e he
    cases e with
    | send m ok => exact absurd rfl (htail _ he m ok)
    | write d => rfl
    | respond r => rfl
  | cons b bs ih =>
    simp only [Outcome.mails, List.map_cons, List.cons_append, List.filterMap_cons] at ih ⊢
    rw [ih]

theorem eligible_flagged (tomorrowStr : String) (b : Booking) :
    eligible tomorrowStr { b with preArrivalEmailSent := .bool true } = false := by
  simp [eligible, dueTomorrow, JsVal.truthy]

theorem eligible_after_sweep (env : Env) (tomorrowStr : String) (l : List Booking)
    (hcfg : env.mailConfigured = true) (hok : ∀ m, env.sendMail m = true) :
    ∀ x ∈ (sweepLoop env tomorrowStr l).bookings, eligible tomorrowStr x = false := by
  intro x hx
  rw [sweepLoop_bookings, List.mem_map] at hx
  obtain ⟨y, _, hy⟩ := hx
  rcases Bool.eq_false_or_eq_true (eligible tomorrowStr y) with he | he
  · simp only [he, hcfg, hok, Bool.and_self, if_true] at hy
    rw [← hy]
    exact eligible_flagged tomorrowStr y
  · simp only [he, Bool.false_and, Bool.false_eq_true, if_false] at hy
    rw [← hy]
    exact he

theorem sendPreArrivalEmails_sent (env : Env) (tomorrowStr : String) (fs : FS) (b : Booking)
    (hb : b ∈ getBookings fs)
    (hsent : (eligible tomorrowStr b && env.mailConfigured && env.sendMail (welcomeMail b)) = true) :
    sendPreArrivalEmails env tomorrowStr fs
      = { fs := { fs with
                bookings := .parsed (sweepLoop env tomorrowStr (getBookings fs)).bookings }
          events := (sweepLoop env tomorrowStr (getBookings fs)).events
            ++ [.write (sweepLoop env tomorrowStr (getBookings fs)).bookings] } := by
  have hpos : (sweepLoop env tomorrowStr (getBookings fs)).sentCount > 0 := by
    rw [sweepLoop_sentCount]
    exact List.length_pos_of_mem (List.mem_filter.mpr ⟨hb, hsent⟩)
  simp only [sendPreArrivalEmails, hpos, if_true, writeJSON]

theorem sweep_due_record_core (env : Env) (tomorrowStr : String) (fs : FS)
    (pre : List Booking) (b : Booking) (post : List Booking)
    (hcfg : env.mailConfigured = true) (hok : ∀ m, env.sendMail m = true)
    (hB : getBookings fs = pre ++ b :: post)
    (hst : b.status = .str "Confirmed") (hci : b.checkIn = .str tomorrowStr)
    (hem : b.email.truthy = true) (hfl : b.preArrivalEmailSent.truthy = false) :
    (sendPreArrivalEmails env tomorrowStr fs).mails
      = (pre.filter (eligible tomorrowStr)).map welcomeMail ++ [welcomeMail b]
        ++ (post.filter (eligible tomorrowStr)).map welcomeMail ∧
    getBookings (sendPreArrivalEmails env tomorrowStr fs).fs
      = (sweepLoop env tomorrowStr pre).bookings
        ++ { b with preArrivalEmailSent := .bool true }
          :: (sweepLoop env tomorrowStr post).bookings ∧
    (sendPreArrivalEmails env tomorrowStr fs).writes
      = [getBookings (sendPreArrivalEmails env tomorrowStr fs).fs] ∧
    (sendPreArrivalEmails env tomorrowStr (sendPreArrivalEmails env tomorrowStr fs).fs).mails
      = [] ∧
    (sendPreArrivalEmails env tomorrowStr (sendPreArrivalEmails env tomorrowStr fs).fs).writes
      = [] ∧
    (sendPreArrivalEmails env tomorrowStr (sendPreArrivalEmails env tomorrowStr fs).fs).fs
      = (sendPreArrivalEmails env tomorrowStr fs).fs := by
  have hel : eligible tomorrowStr b = true := by
    simp [eligible, dueTomorrow, hst, hci, hem, hfl]
  have hmem : b ∈ getBookings fs := by rw [hB]; simp
  have hrun := sendPreArrivalEmails_sent env tomorrowStr fs b hmem
    (by simp [hel, hcfg, hok])
  have hstore : getBookings (sendPreArrivalEmails env tomorrowStr fs).fs
      = (sweepLoop env tomorrowStr (getBookings fs)).bookings := by
    rw [hrun]; rfl
  have hidle := sendPreArrivalEmails_idle env tomorrowStr
    (sendPreArrivalEmails env tomorrowStr fs).fs
    (fun x hx => Or.inl (by
      rw [hstore] at hx
      exact eligible_after_sweep env tomorrowStr _ hcfg hok x hx))
  refine ⟨?_, ?_, ?_, ?_, ?_, ?_⟩
  · rw [hrun, sweepLoop_events, if_pos hcfg]
    rw [mails_of_sends _ _ _ _ (by intro e he m ok; rw [List.mem_singleton.mp he]; simp)]
    rw [hB]
    simp [List.filter_append, List.filter_cons, hel]
  · rw [hstore, hB, sweepLoop_bookings, sweepLoop_bookings, sweepLoop_bookings]
    simp [hel, hcfg, hok]
  · rw [hstore, hrun]
    simp only [Outcome.writes, sweepLoop_events, if_pos hcfg]
    simp [List.filterMap_append]
  · rw [hidle]; rfl
  · rw [hidle]; rfl
  · rw [hidle]

/-- Claim C16. With mail configured and every send resolving, a sweep over a
store holding a record `b` that is Confirmed, checks in tomorrow, has an
e-mail address and whose flag is not set sends one reminder of kind
`welcomeMailOptions` to `b.email` about booking `b.id` (between the reminders
to the eligible records before and after it, each to its own address), and
writes the collection with the flag of `b` set to `true`; a second sweep for
the same day on the result sends nothing, writes nothing and leaves the data
directory as it is. -/
theorem sweep_reminds_once (env : Env) (tomorrowStr : String) (fs : FS)
    (pre : List Booking) (b : Booking) (post : List Booking)
    (hcfg : env.mailConfigured = true) (hok : ∀ m, env.sendMail m = true)
    (hB : getBookings fs = pre ++ b :: post)
    (hst : b.status = .str "Confirmed") (hci : b.checkIn = .str tomorrowStr)
    (hem : b.email.truthy = true) (hfl : b.preArrivalEmailSent.truthy = false) :
    (sendPreArrivalEmails env tomorrowStr fs).mails
      = (pre.filter (eligible tomorrowStr)).map
          (fun x => { kind := .welcomeMailOptions, recipient := x.email, bookingId := x.id })
        ++ [{ kind := .welcomeMailOptions, recipient := b.email, bookingId := b.id }]
        ++ (post.filter (eligible tomorrowStr)).map
          (fun x => { kind := .welcomeMailOptions, recipient := x.email, bookingId := x.id }) ∧
    getBookings (sendPreArrivalEmails env tomorrowStr fs).fs
      = (sweepLoop env tomorrowStr pre).bookings
        ++ { b with preArrivalEmailSent := .bool true }
          :: (sweepLoop env tomorrowStr post).bookings ∧
    (sendPreArrivalEmails env tomorrowStr fs).writes
      = [getBookings (sendPreArrivalEmails env tomorrowStr fs).fs] ∧
    (sendPreArrivalEmails env tomorrowStr (sendPreArrivalEmails env tomorrowStr fs).fs).mails
      = [] ∧
    (sendPreArrivalEmails env tomorrowStr (sendPreArrivalEmails env tomorrowStr fs).fs).writes
      = [] ∧
    (sendPreArrivalEmails env tomorrowStr (sendPreArrivalEmails env tomorrowStr fs).fs).fs
      = (sendPreArrivalEmails env tomorrowStr fs).fs :=
  sweep_due_record_core env tomorrowStr fs pre b post hcfg hok hB hst hci hem hfl

/-- Witness of C16: the Confirmed booking of `meera` checks in on 2024-03-01
and the sweep runs with `tomorrowStr = "2024-03-01"`: one reminder, to
`meera@example.com`, about booking `1690000000001`. -/
theorem sweep_reminds_once_witness :
    (sendPreArrivalEmails (mailEnv 1700000000000 true) "2024-03-01"
        (twoBookingFS "Confirmed")).mails
      = [{ kind := .welcomeMailOptions, recipient := .str "meera@example.com",
           bookingId := 1690000000001 }] ∧
    (sendPreArrivalEmails (mailEnv 1700000000000 true) "2024-03-01"
        (sendPreArrivalEmails (mailEnv 1700000000000 true) "2024-03-01"
          (twoBookingFS "Confirmed")).fs).mails = [] := by
  have h := sweep_reminds_once (mailEnv 1700000000000 true) "2024-03-01"
    (twoBookingFS "Confirmed")
    [newBooking (quietEnv 1690000000000)
      (simpleRequest "Ravi" "2024-02-01" "2024-02-02" "Deluxe" false false false) (some 5000)]
    (meera "Confirmed") [] (by decide) (fun _ => rfl) rfl rfl rfl (by decide) (by decide)
  exact ⟨h.1, h.2.2.2.1⟩

theorem sendPreArrivalEmails_store (env : Env) (tomorrowStr : String) (fs : FS) :
    getBookings (sendPreArrivalEmails env tomorrowStr fs).fs
      = (getBookings fs).map (fun b =>
          if eligible tomorrowStr b && env.mailConfigured && env.sendMail (welcomeMail b)
          then { b with preArrivalEmailSent := .bool true } else b) := by
  rw [← sweepLoop_bookings]
  by_cases hpos : (sweepLoop env tomorrowStr (getBookings fs)).sentCount > 0
  · simp only [sendPreArrivalEmails, hpos, if_true, writeJSON]
    rfl
  · simp only [sendPreArrivalEmails, hpos, if_false]
    have h0 : (sweepLoop env tomorrowStr (getBookings fs)).sentCount = 0 := by omega
    rw [sweepLoop_sentCount, List.length_eq_zero, List.filter_eq_nil_iff] at h0
    rw [sweepLoop_bookings]
    symm
    conv_rhs => rw [← List.map_id (getBookings fs)]
    apply List.map_congr_left
    intro b hb
    simp [h0 b hb]

theorem sendPreArrivalEmails_mails (env : Env) (tomorrowStr : String) (fs : FS) :
    (sendPreArrivalEmails env tomorrowStr fs).mails
      = if env.mailConfigured then ((getBookings fs).filter (eligible tomorrowStr)).map welcomeMail
        else [] := by
  have hev := sweepLoop_events env tomorrowStr (getBookings fs)
  rcases Bool.eq_false_or_eq_true env.mailConfigured with hc | hc
  · simp only [hc, if_true] at hev ⊢
    simp only [sendPreArrivalEmails]
    split_ifs
    · rw [hev]
      exact mails_of_sends _ _ _ _ (by intro e he m ok; rw [List.mem_singleton.mp he]; simp)
    · rw [hev]
      have := mails_of_sends fs ((getBookings fs).filter (eligible tomorrowStr))
        (fun b => env.sendMail (welcomeMail b)) [] (by simp)
      simpa using this
  · simp only [hc, Bool.false_eq_true, if_false] at hev ⊢
    simp only [sendPreArrivalEmails, hev]
    split_ifs <;> simp [Outcome.mails]

/-- Counterexample to C17. Without mail configuration the sweep sends no
reminder, although the store holds a Confirmed booking that checks in tomorrow,
has an e-mail address and has its flag not set. -/
theorem sweep_unconfigured_sends_nothing :
    meera "Confirmed" ∈ getBookings (twoBookingFS "Confirmed") ∧
    (meera "Confirmed").status = .str "Confirmed" ∧
    (meera "Confirmed").checkIn = .str "2024-03-01" ∧
    (meera "Confirmed").preArrivalEmailSent.truthy = false ∧
    (meera "Confirmed").email.truthy = true ∧
    (sendPreArrivalEmails (quietEnv 1700000000000) "2024-03-01"
        (twoBookingFS "Confirmed")).mails = [] := by
  refine ⟨by decide!, rfl, rfl, rfl, by decide, ?_⟩
  rw [sendPreArrivalEmails_mails]
  rfl

theorem sweep_attempts_core (env : Env) (tomorrowStr : String) (fs : FS) :
    (∀ b : Booking, eligible tomorrowStr b = true ↔
      (b.status = .str "Confirmed" ∧ b.checkIn = .str tomorrowStr ∧
        b.preArrivalEmailSent.truthy = false ∧ b.email.truthy = true)) ∧
    (sendPreArrivalEmails env tomorrowStr fs).mails
      = (if env.mailConfigured
          then ((getBookings fs).filter (eligible tomorrowStr)).map welcomeMail else []) ∧
    getBookings (sendPreArrivalEmails env tomorrowStr fs).fs
      = (getBookings fs).map (fun b =>
          if eligible tomorrowStr b && env.mailConfigured && env.sendMail (welcomeMail b)
          then { b with preArrivalEmailSent := .bool true } else b) ∧
    (∀ pre b post, getBookings fs = pre ++ b :: post → eligible tomorrowStr b = false →
      (sendPreArrivalEmails env tomorrowStr fs).mails
        = (if env.mailConfigured
            then (pre.filter (eligible tomorrowStr)).map welcomeMail
              ++ (post.filter (eligible tomorrowStr)).map welcomeMail else []) ∧
      ∃ pre1 post1, pre1.length = pre.length ∧
        getBookings (sendPreArrivalEmails env tomorrowStr fs).fs = pre1 ++ b :: post1) := by
  refine ⟨?_, sendPreArrivalEmails_mails env tomorrowStr fs,
    sendPreArrivalEmails_store env tomorrowStr fs, ?_⟩
  · intro b
    simp [eligible, dueTomorrow, and_assoc]
  · intro pre b post hB hel
    constructor
    · rw [sendPreArrivalEmails_mails, hB]
      simp [List.filter_append, List.filter_cons, hel]
    · rw [sendPreArrivalEmails_store, hB]
      refine ⟨_, _, ?_, by rw [List.map_append, List.map_cons]; simp only [hel]; rfl⟩
      simp

/-- Claim C17, amended. A record is eligible when it is Confirmed, checks in
tomorrow, has its flag not set and has an e-mail address. The sweep leaves
every record that is not eligible exactly as it was and sends nothing for it.
With mail configured the reminders attempted are one message of kind
`welcomeMailOptions` to the address `email` of each eligible record, about its
`id`, in store order, and to nobody else; without mail configuration nothing
is sent. A flag is set only on an eligible record whose send resolved. -/
theorem sweep_selects_eligible (env : Env) (tomorrowStr : String) (fs : FS) :
    (∀ b : Booking, eligible tomorrowStr b = true ↔
      (b.status = .str "Confirmed" ∧ b.checkIn = .str tomorrowStr ∧
        b.preArrivalEmailSent.truthy = false ∧ b.email.truthy = true)) ∧
    (sendPreArrivalEmails env tomorrowStr fs).mails
      = (if env.mailConfigured
          then ((getBookings fs).filter (eligible tomorrowStr)).map
            (fun x => { kind := .welcomeMailOptions, recipient := x.email, bookingId := x.id })
          else []) ∧
    getBookings (sendPreArrivalEmails env tomorrowStr fs).fs
      = (getBookings fs).map (fun b =>
          if eligible tomorrowStr b && env.mailConfigured
            && env.sendMail
              { kind := .welcomeMailOptions, recipient := b.email, bookingId := b.id }
          then { b with preArrivalEmailSent := .bool true } else b) ∧
    (∀ pre b post, getBookings fs = pre ++ b :: post → eligible tomorrowStr b = false →
      (sendPreArrivalEmails env tomorrowStr fs).mails
        = (if env.mailConfigured
            then (pre.filter (eligible tomorrowStr)).map
                (fun x => { kind := .welcomeMailOptions, recipient := x.email, bookingId := x.id })
              ++ (post.filter (eligible tomorrowStr)).map
                (fun x => { kind := .welcomeMailOptions, recipient := x.email, bookingId := x.id })
            else []) ∧
      ∃ pre1 post1, pre1.length = pre.length ∧
        getBookings (sendPreArrivalEmails env tomorrowStr fs).fs = pre1 ++ b :: post1) :=
  sweep_attempts_core env tomorrowStr fs

/-! ## Mail failures do not undo a status change -/

theorem confirmBooking_mails (env : Env) (fs : FS) (req : ConfirmRequest) (b : Booking)
    (h : (getBookings fs).find? (fun x => looseEq env x.id (.str req.id)) = some b) :
    (confirmBooking env fs req).mails
      = if env.mailConfigured && b.email.truthy
        then [{ kind := .guestMailOptions, recipient := b.email, bookingId := b.id }]
        else [] := by
  rw [confirmBooking_found env fs req b h]
  split_ifs <;> simp [Outcome.mails]

/-- Counterexample to C18. With mail configured, confirming an existing booking
that has no e-mail address makes no send attempt at all. -/
theorem confirm_without_email_sends_nothing :
    (getBookings oneBookingFS).find?
        (fun x => looseEq (mailEnv 1700000000000 true) x.id (.str "1690000000000"))
      = some (newBooking (quietEnv 1690000000000)
          (simpleRequest "Ravi" "2024-02-01" "2024-02-02" "Deluxe" false false false)
          (some 5000)) ∧
    (mailEnv 1700000000000 true).mailConfigured = true ∧
    (confirmBooking (mailEnv 1700000000000 true) oneBookingFS
        { id := "1690000000000", accept := none }).mails = [] ∧
    (confirmBooking (mailEnv 1700000000000 true) oneBookingFS
        { id := "1690000000000", accept := none }).response
      = some (.json 200 true .bookingConfirmedSuccessfully none) := by
  have hfind : (getBookings oneBookingFS).find?
        (fun x => looseEq (mailEnv 1700000000000 true) x.id (.str "1690000000000"))
      = some (newBooking (quietEnv 1690000000000)
          (simpleRequest "Ravi" "2024-02-01" "2024-02-02" "Deluxe" false false false)
          (some 5000)) := by decide!
  refine ⟨hfind, by decide, ?_, confirmBooking_response _ _ _ _ hfind⟩
  rw [confirmBooking_mails _ _ _ _ hfind]
  rfl

/-- Claim C18, amended. For every existing booking the confirm endpoint makes
one attempt at the guest confirmation when mail is configured and the booking
has an e-mail address, and none otherwise; whether the send resolves or throws,
the data directory it leaves and its success response are the same, and the
record found for the id is stored with status Confirmed. -/
theorem confirm_persists_whatever_mail (env : Env) (fs : FS) (req : ConfirmRequest)
    (b : Booking) (send1 send2 : Mail → Bool)
    (h : (getBookings fs).find? (fun x => looseEq env x.id (.str req.id)) = some b) :
    (confirmBooking { env with sendMail := send1 } fs req).mails
      = (if env.mailConfigured && b.email.truthy
          then [{ kind := .guestMailOptions, recipient := b.email, bookingId := b.id }]
          else []) ∧
    (confirmBooking { env with sendMail := send1 } fs req).fs
      = (confirmBooking { env with sendMail := send2 } fs req).fs ∧
    (confirmBooking { env with sendMail := send1 } fs req).response
      = some (.json 200 true .bookingConfirmedSuccessfully none) ∧
    (confirmBooking { env with sendMail := send2 } fs req).response
      = some (.json 200 true .bookingConfirmedSuccessfully none) ∧
    (getBookings (confirmBooking { env with sendMail := send1 } fs req).fs).find?
        (fun x => looseEq env x.id (.str req.id))
      = some { b with status := .str "Confirmed" } := by
  have h1 : (getBookings fs).find?
      (fun x => looseEq { env with sendMail := send1 } x.id (.str req.id)) = some b := h
  have h2 : (getBookings fs).find?
      (fun x => looseEq { env with sendMail := send2 } x.id (.str req.id)) = some b := h
  refine ⟨confirmBooking_mails _ fs req b h1, ?_, confirmBooking_response _ fs req b h1,
    confirmBooking_response _ fs req b h2, ?_⟩
  · rw [confirmBooking_fs _ fs req b h1, confirmBooking_fs _ fs req b h2]
    rfl
  · rw [confirmBooking_fs _ fs req b h1, getBookings_parsed]
    exact (setStatus_twice (fun x => looseEq env x.id (.str req.id)) (.str "Confirmed")
      (getBookings fs) b (fun _ _ => rfl) h).1

/-- Witness of the amended C18: confirming the Pending booking of `meera` with
a mailer that throws and with one that delivers. -/
theorem confirm_persists_whatever_mail_witness :
    (confirmBooking { mailEnv 1700000000000 true with sendMail := fun _ => false }
        (twoBookingFS "Pending") { id := "1690000000001", accept := none }).fs
      = (confirmBooking { mailEnv 1700000000000 true with sendMail := fun _ => true }
        (twoBookingFS "Pending") { id := "1690000000001", accept := none }).fs :=
  (confirm_persists_whatever_mail (mailEnv 1700000000000 true) (twoBookingFS "Pending")
    { id := "1690000000001", accept := none } (meera "Pending")
    (fun _ => false) (fun _ => true) (by decide!)).2.1

/-- Claim C19. When the status-change action sets an existing booking with an
e-mail address to Cancelled, mail is configured and the cancellation e-mail
throws, the action still writes the collection first, answers the success
response, and leaves the record stored with status Cancelled: response and
data directory equal those of the run in which the e-mail is delivered. -/
theorem cancel_survives_mail_failure (env : Env) (fs : FS) (req : StatusRequest) (b : Booking)
    (h : (getBookings fs).find? (fun x => looseEq env x.id req.bookingId) = some b)
    (hst : req.status = .str "Cancelled") (hem : b.email.truthy = true)
    (hcfg : env.mailConfigured = true)
    (hthrow : env.sendMail
      { kind := .cancelMailOptions, recipient := b.email, bookingId := b.id } = false) :
    (updateBookingStatus env fs req).events
      = [.write (setStatus (fun x => looseEq env x.id req.bookingId) (.str "Cancelled")
            (getBookings fs)),
          .send { kind := .cancelMailOptions, recipient := b.email, bookingId := b.id } false,
          .respond (if acceptsJson req.accept
            then .json 200 true (.statusUpdatedTo (.str "Cancelled")) none
            else .redirect "/admin/settings?tab=bookings&msg=Booking Updated")] ∧
    (getBookings (updateBookingStatus env fs req).fs).find?
        (fun x => looseEq env x.id req.bookingId)
      = some { b with status := .str "Cancelled" } ∧
    (updateBookingStatus env fs req).response
      = (updateBookingStatus { env with sendMail := fun _ => true } fs req).response ∧
    (updateBookingStatus env fs req).fs
      = (updateBookingStatus { env with sendMail := fun _ => true } fs req).fs ∧
    (updateBookingStatus { env with sendMail := fun _ => true } fs req).mails
      = [{ kind := .cancelMailOptions, recipient := b.email, bookingId := b.id }] := by
  have h2 : (getBookings fs).find?
      (fun x => looseEq { env with sendMail := fun _ => true } x.id req.bookingId) = some b := h
  have hcfg2 : Env.mailConfigured { env with sendMail := fun _ => true } = true := hcfg
  have hfind := (status_change_found_status env fs req b h)
  refine ⟨?_, ?_, ?_, ?_, ?_⟩
  · rw [updateBookingStatus_found env fs req b h]
    simp [hst, hem, hcfg, hthrow]
  · rw [← hst]; exact hfind
  · rw [updateBookingStatus_response env fs req b h,
      updateBookingStatus_response _ fs req b h2]
  · rw [updateBookingStatus_found env fs req b h, updateBookingStatus_found _ fs req b h2]
    rfl
  · rw [updateBookingStatus_found _ fs req b h2]
    simp [hst, hem, hcfg2, Outcome.mails]

/-- Witness of C19: cancelling the Pending booking of `meera` with a mailer
that throws. -/
theorem cancel_survives_mail_failure_witness :
    (getBookings (updateBookingStatus (mailEnv 1700000000000 false) (twoBookingFS "Pending")
        { bookingId := .str "1690000000001", status := .str "Cancelled",
          accept := some "application/json" }).fs).find?
        (fun x => looseEq (mailEnv 1700000000000 false) x.id (.str "1690000000001"))
      = some { meera "Pending" with status := .str "Cancelled" } :=
  (cancel_survives_mail_failure (mailEnv 1700000000000 false) (twoBookingFS "Pending")
    { bookingId := .str "1690000000001", status := .str "Cancelled",
      accept := some "application/json" } (meera "Pending")
    (by decide!) rfl (by decide) (by decide) rfl).2.1

/-! ## The submission response and the notifications -/

theorem backgroundMails_sends (env : Env) (fs : FS) (body : BookRequest) (b : Booking) :
    ∀ e ∈ backgroundMails env fs body b, ∃ m ok, e = .send m ok := by
  intro e he
  simp only [backgroundMails] at he
  split_ifs at he <;> simp at he
  · rcases he with he | he <;> exact ⟨_, _, he⟩
  · exact ⟨_, _, he⟩
  · exact ⟨_, _, he⟩

/-- Claim C20. For the same request, data directory, clock and date parser, the
response of the submission handler and the data directory it leaves are the
same whatever the mail configuration and whatever the outcome of the sends;
for an accepted request the events are the write of the new collection, then
the success response, then only mail send attempts. -/
theorem book_response_independent_of_mail (env : Env) (fs : FS) (body : BookRequest)
    (user pass : Option String) (send : Mail → Bool) :
    (bookHandler { env with GMAIL_USER := user, GMAIL_APP_PASSWORD := pass, sendMail := send }
        fs body).response = (bookHandler env fs body).response ∧
    (bookHandler { env with GMAIL_USER := user, GMAIL_APP_PASSWORD := pass, sendMail := send }
        fs body).fs = (bookHandler env fs body).fs ∧
    (missingRequired body = false →
      ∃ data sends,
        (bookHandler env fs body).events
          = .write data :: .respond (.json 200 true .bookingRequestReceived (some env.now))
            :: sends ∧
        (∀ e ∈ sends, ∃ m ok, e = .send m ok) ∧
        getBookings (bookHandler env fs body).fs = data ∧
        (bookHandler env fs body).response
          = some (.json 200 true .bookingRequestReceived (some env.now))) := by
  cases h : missingRequired body
  · refine ⟨?_, ?_, fun _ => ?_⟩
    · rw [bookHandler_accept env fs body h, bookHandler_accept _ fs body h]
      simp [Outcome.response]
    · rw [bookHandler_accept env fs body h, bookHandler_accept _ fs body h]
      rfl
    · rw [bookHandler_accept env fs body h]
      exact ⟨_, _, rfl, backgroundMails_sends _ _ _ _, rfl, by simp [Outcome.response]⟩
  · refine ⟨?_, ?_, fun hc => by simp at hc⟩
    · rw [bookHandler_reject env fs body h, bookHandler_reject _ fs body h]
    · rw [bookHandler_reject env fs body h, bookHandler_reject _ fs body h]

/-! ## Reading a missing or damaged bookings file -/

/-- Claim C21. When the bookings file does not exist, or exists but cannot be
parsed, `readJSON` returns `null` and `getBookings` returns the empty
collection; both are total functions, so no error is raised. -/
theorem getBookings_missing_or_unparsable (fs : FS)
    (h : fs.bookings = .missing ∨ fs.bookings = .unparsable) :
    readJSON fs.bookings = none ∧ getBookings fs = [] := by
  rcases h with h | h <;> simp [getBookings, readJSON, h]

/-- Witness of C21: a data directory without a bookings file. -/
theorem getBookings_missing_or_unparsable_witness :
    getBookings { bookings := .missing, roomTypes := .missing, generalData := .missing } = [] :=
  (getBookings_missing_or_unparsable
    { bookings := .missing, roomTypes := .missing, generalData := .missing } (Or.inl rfl)).2

/-! ## Order of notification and write in the confirm endpoint -/

/-- Claim C24. On an existing booking with an e-mail address and mail
configured, the confirm endpoint first attempts the guest confirmation, then
writes the bookings collection, then responds, whether the send resolved or
threw; after a send that throws the write is still made and the collection
read back is the written one. -/
theorem confirm_sends_before_write (env : Env) (fs : FS) (req : ConfirmRequest) (b : Booking)
    (h : (getBookings fs).find? (fun x => looseEq env x.id (.str req.id)) = some b)
    (hem : b.email.truthy = true) (hcfg : env.mailConfigured = true) :
    (confirmBooking env fs req).events
      = [.send { kind := .guestMailOptions, recipient := b.email, bookingId := b.id }
            (env.sendMail { kind := .guestMailOptions, recipient := b.email, bookingId := b.id }),
          .write (setStatus (fun x => looseEq env x.id (.str req.id)) (.str "Confirmed")
            (getBookings fs)),
          .respond (.json 200 true .bookingConfirmedSuccessfully none)] ∧
    (env.sendMail { kind := .guestMailOptions, recipient := b.email, bookingId := b.id } = false →
      (confirmBooking env fs req).writes
        = [setStatus (fun x => looseEq env x.id (.str req.id)) (.str "Confirmed")
            (getBookings fs)] ∧
      getBookings (confirmBooking env fs req).fs
        = setStatus (fun x => looseEq env x.id (.str req.id)) (.str "Confirmed")
            (getBookings fs)) := by
  rw [confirmBooking_found env fs req b h]
  simp [hem, hcfg, Outcome.writes, getBookings, readJSON]

/-- Witness of C24: confirming the Pending booking of `meera` with a mailer
that throws. -/
theorem confirm_sends_before_write_witness :
    (confirmBooking (mailEnv 1700000000000 false) (twoBookingFS "Pending")
        { id := "1690000000001", accept := none }).events
      = [.send { kind := .guestMailOptions, recipient := .str "meera@example.com",
                 bookingId := 1690000000001 } false,
          .write (setStatus
            (fun x => looseEq (mailEnv 1700000000000 false) x.id (.str "1690000000001"))
            (.str "Confirmed") (getBookings (twoBookingFS "Pending"))),
          .respond (.json 200 true .bookingConfirmedSuccessfully none)] :=
  (confirm_sends_before_write (mailEnv 1700000000000 false) (twoBookingFS "Pending")
    { id := "1690000000001", accept := none } (meera "Pending")
    (by decide!) (by decide) (by decide)).1

/-! ## The single write of the sweep -/

theorem sweepLoop_events_sends (env : Env) (tomorrowStr : String) (l : List Booking) :
    ∀ e ∈ (sweepLoop env tomorrowStr l).events, ∃ m ok, e = .send m ok := by
  intro e he
  rw [sweepLoop_events] at he
  split_ifs at he
  · obtain ⟨b, _, hb⟩ := List.mem_map.mp he
    exact ⟨_, _, hb.symm⟩
  · simp at he

theorem writes_of_sends (fs : FS) (es tail : List Event)
    (hes : ∀ e ∈ es, ∃ m ok, e = .send m ok) :
    Outcome.writes { fs := fs, events := es ++ tail }
      = Outcome.writes { fs := fs, events := tail } := by
  induction es with
  | nil => rfl
  | cons e es ih =>
    obtain ⟨m, ok, hm⟩ := hes e (by simp)
    have ih1 := ih (fun x hx => hes x (by simp [hx]))
    subst hm
    simpa [Outcome.writes] using ih1

/-- Claim C25. The events of a sweep are its send attempts followed by at most
one write, and the write is made exactly when some eligible record's send
resolved with mail configured; otherwise nothing is written and the data
directory is unchanged. The store afterwards is the one read with the flag set
to `true` on exactly the records whose send resolved, so a record whose send
threw is unchanged and still eligible. -/
theorem sweep_writes_at_most_once (env : Env) (tomorrowStr : String) (fs : FS) :
    (sendPreArrivalEmails env tomorrowStr fs).events
      = (sweepLoop env tomorrowStr (getBookings fs)).events
        ++ (if (getBookings fs).any (fun b =>
              eligible tomorrowStr b && env.mailConfigured && env.sendMail (welcomeMail b))
            then [.write ((getBookings fs).map (fun b =>
              if eligible tomorrowStr b && env.mailConfigured && env.sendMail (welcomeMail b)
              then { b with preArrivalEmailSent := .bool true } else b))]
            else []) ∧
    (∀ e ∈ (sweepLoop env tomorrowStr (getBookings fs)).events, ∃ m ok, e = .send m ok) ∧
    (sendPreArrivalEmails env tomorrowStr fs).writes
      = (if (getBookings fs).any (fun b =>
              eligible tomorrowStr b && env.mailConfigured && env.sendMail (welcomeMail b))
          then [(getBookings fs).map (fun b =>
              if eligible tomorrowStr b && env.mailConfigured && env.sendMail (welcomeMail b)
              then { b with preArrivalEmailSent := .bool true } else b)]
          else []) ∧
    ((getBookings fs).any (fun b =>
        eligible tomorrowStr b && env.mailConfigured && env.sendMail (welcomeMail b)) = false →
      (sendPreArrivalEmails env tomorrowStr fs).fs = fs) ∧
    getBookings (sendPreArrivalEmails env tomorrowStr fs).fs
      = (getBookings fs).map (fun b =>
          if eligible tomorrowStr b && env.mailConfigured && env.sendMail (welcomeMail b)
          then { b with preArrivalEmailSent := .bool true } else b) ∧
    (∀ b ∈ getBookings fs, eligible tomorrowStr b = true →
      env.sendMail (welcomeMail b) = false →
      b ∈ getBookings (sendPreArrivalEmails env tomorrowStr fs).fs) := by
  have hcount : (sweepLoop env tomorrowStr (getBookings fs)).sentCount > 0 ↔
      (getBookings fs).any (fun b =>
        eligible tomorrowStr b && env.mailConfigured && env.sendMail (welcomeMail b)) = true := by
    rw [sweepLoop_sentCount, gt_iff_lt, List.length_pos_iff_exists_mem, List.any_eq_true]
    constructor
    · rintro ⟨b, hb⟩
      exact ⟨b, (List.mem_filter.mp hb).1, (List.mem_filter.mp hb).2⟩
    · rintro ⟨b, hb, hs⟩
      exact ⟨b, List.mem_filter.mpr ⟨hb, hs⟩⟩
  have hev : (sendPreArrivalEmails env tomorrowStr fs).events
      = (sweepLoop env tomorrowStr (getBookings fs)).events
        ++ (if (getBookings fs).any (fun b =>
              eligible tomorrowStr b && env.mailConfigured && env.sendMail (welcomeMail b))
            then [.write ((getBookings fs).map (fun b =>
              if eligible tomorrowStr b && env.mailConfigured && env.sendMail (welcomeMail b)
              then { b with preArrivalEmailSent := .bool true } else b))]
            else []) := by
    by_cases hpos : (sweepLoop env tomorrowStr (getBookings fs)).sentCount > 0
    · simp only [sendPreArrivalEmails, hpos, if_true, hcount.mp hpos, sweepLoop_bookings]
    · have hany : (getBookings fs).any (fun b =>
          eligible tomorrowStr b && env.mailConfigured && env.sendMail (welcomeMail b)) = false := by
        rcases Bool.eq_false_or_eq_true ((getBookings fs).any (fun b =>
          eligible tomorrowStr b && env.mailConfigured && env.sendMail (welcomeMail b))) with h | h
        · exact absurd (hcount.mpr h) hpos
        · exact h
      simp only [sendPreArrivalEmails, hpos, if_false, hany, Bool.false_eq_true,
        List.append_nil]
  have hsends := sweepLoop_events_sends env tomorrowStr (getBookings fs)
  refine ⟨hev, hsends, ?_, ?_, sendPreArrivalEmails_store env tomorrowStr fs, ?_⟩
  · have hw : (sendPreArrivalEmails env tomorrowStr fs).writes
        = Outcome.writes { fs := (sendPreArrivalEmails env tomorrowStr fs).fs
                           events := (sendPreArrivalEmails env tomorrowStr fs).events } := rfl
    rw [hw, hev, writes_of_sends _ _ _ hsends]
    split_ifs <;> rfl
  · intro hany
    have hpos : ¬ (sweepLoop env tomorrowStr (getBookings fs)).sentCount > 0 := by
      intro hp
      rw [hcount.mp hp] at hany
      exact Bool.noConfusion hany
    simp only [sendPreArrivalEmails, hpos, if_false]
  · intro b hb _ hfail
    rw [sendPreArrivalEmails_store]
    exact List.mem_map.mpr ⟨b, hb, by simp [hfail]⟩

/-! ## The dashboard listing -/

/-- Counterexample to C26. With the query `?status=` (the empty string) the
dashboard shows all bookings, reversed, while no stored booking has the empty
status. -/
theorem empty_status_shows_all :
    (adminSettings (twoBookingFS "Pending") (some "")).bookings
      = (getBookings (twoBookingFS "Pending")).reverse ∧
    (getBookings (twoBookingFS "Pending")).reverse.filter
        (fun b => decide (b.status = .str "")) = [] ∧
    (adminSettings (twoBookingFS "Pending") (some "")).bookings
      ≠ (getBookings (twoBookingFS "Pending")).reverse.filter
        (fun b => decide (b.status = .str "")) := by
  decide!

/-- Claim C26, amended. The dashboard lists the bookings in insertion order
reversed; for a non-empty status parameter `s` the list shown is
`filter (status = s) (reverse B)`; when the parameter is absent or empty it is
`reverse B`. -/
theorem dashboard_lists_reversed (fs : FS) :
    (∀ s : String, s ≠ "" →
      (adminSettings fs (some s)).bookings
        = (getBookings fs).reverse.filter (fun b => decide (b.status = .str s))) ∧
    (adminSettings fs none).bookings = (getBookings fs).reverse ∧
    (adminSettings fs (some "")).bookings = (getBookings fs).reverse ∧
    (∀ q, (adminSettings fs q).allBookings = (getBookings fs).reverse) := by
  refine ⟨?_, rfl, ?_, fun _ => rfl⟩
  · intro s hs
    simp [adminSettings, envVar, JsVal.truthy, hs]
  · simp [adminSettings, envVar, JsVal.truthy]

/-! ## Revenue and pending count -/

theorem jsAdd_right_comm (x y z : JsNum) : jsAdd (jsAdd x y) z = jsAdd (jsAdd x z) y := by
  cases x <;> cases y <;> cases z <;> simp [jsAdd]
  ring

theorem dashboardRevenue_reverse (l : List Booking) :
    dashboardRevenue l.reverse
      = l.foldr (fun b sum =>
          if b.status = .str "Confirmed" then jsAdd sum (priceOrZero b.totalPrice) else sum)
          (some 0) := by
  simp only [dashboardRevenue, List.foldl_reverse]

theorem dashboardRevenue_reverse_cons (b : Booking) (l : List Booking) :
    dashboardRevenue (b :: l).reverse
      = if b.status = .str "Confirmed"
        then jsAdd (dashboardRevenue l.reverse) (priceOrZero b.totalPrice)
        else dashboardRevenue l.reverse := by
  simp only [dashboardRevenue_reverse, List.foldr_cons]

theorem dashboardRevenue_filter (l : List Booking) :
    dashboardRevenue l.reverse
      = (l.filter (fun b => decide (b.status = .str "Confirmed"))).foldr
          (fun b sum => jsAdd sum (priceOrZero b.totalPrice)) (some 0) := by
  induction l with
  | nil => rfl
  | cons b bs ih =>
    rw [dashboardRevenue_reverse_cons, ih]
    by_cases hb : b.status = .str "Confirmed"
    · simp [hb, List.filter_cons]
    · simp [hb, List.filter_cons]

theorem dashboardRevenue_numeric (l : List Booking) (price : Booking → ℚ)
    (h : ∀ b ∈ l, b.status = .str "Confirmed" → priceOrZero b.totalPrice = some (price b)) :
    dashboardRevenue l.reverse
      = some ((l.filter (fun b => decide (b.status = .str "Confirmed"))).map price).sum := by
  induction l with
  | nil => rfl
  | cons b bs ih =>
    have ih1 := ih (fun x hx => h x (by simp [hx]))
    rw [dashboardRevenue_reverse_cons, ih1]
    by_cases hb : b.status = .str "Confirmed"
    · simp [hb, List.filter_cons, h b (by simp) hb, jsAdd, add_comm]
    · simp [hb, List.filter_cons]

theorem dashboardRevenue_confirm (pre post : List Booking) (b : Booking)
    (hb : b.status = .str "Pending") :
    dashboardRevenue (pre ++ { b with status := .str "Confirmed" } :: post).reverse
      = jsAdd (dashboardRevenue (pre ++ b :: post).reverse) (priceOrZero b.totalPrice) := by
  induction pre with
  | nil =>
    simp only [List.nil_append, dashboardRevenue_reverse_cons, hb]
    simp
  | cons c cs ih =>
    simp only [List.cons_append, dashboardRevenue_reverse_cons, ih]
    split_ifs
    · exact jsAdd_right_comm _ _ _
    · rfl

theorem dashboardRevenue_skip (pre post : List Booking) (b : Booking)
    (hb : b.status ≠ .str "Confirmed") :
    dashboardRevenue (pre ++ b :: post).reverse = dashboardRevenue (pre ++ post).reverse := by
  induction pre with
  | nil => simp only [List.nil_append, dashboardRevenue_reverse_cons, hb, if_false]
  | cons c cs ih => simp only [List.cons_append, dashboardRevenue_reverse_cons, ih]

theorem pendingCount_reverse (l : List Booking) :
    pendingCount l.reverse = (l.filter (fun b => decide (b.status = .str "Pending"))).length := by
  simp [pendingCount, List.filter_reverse]

theorem revenueDetails_eq_dashboard (fs : FS) (q : Option String) :
    (revenueDetails fs).2 = (adminSettings fs q).revenue := by
  have key : ∀ (l : List Booking) (init : JsNum),
      (l.filter (fun b => decide (b.status = .str "Confirmed"))).foldl
          (fun sum b => jsAdd sum (priceOrZero b.totalPrice)) init
        = l.foldl (fun sum b =>
            if b.status = .str "Confirmed" then jsAdd sum (priceOrZero b.totalPrice) else sum)
            init := by
    intro l
    induction l with
    | nil => intro init; rfl
    | cons b bs ih =>
      intro init
      by_cases hb : b.status = .str "Confirmed"
      · simp [List.filter_cons, hb, ih]
      · simp [List.filter_cons, hb, ih]
  simp only [revenueDetails, adminSettings, dashboardRevenue]
  exact key _ _

theorem priceOrZero_num (p : ℚ) : priceOrZero (.num (some p)) = some p := by
  by_cases hp : p = 0
  · simp [priceOrZero, jsOr, JsVal.truthy, hp]
  · simp [priceOrZero, jsOr, JsVal.truthy, hp]

theorem priceOrZero_missing :
    priceOrZero .undefined = some 0 ∧ priceOrZero .null = some 0 ∧
    priceOrZero (.num none) = some 0 := by
  simp [priceOrZero, jsOr, JsVal.truthy]

theorem jsAdd_zero (x : JsNum) : jsAdd x (some 0) = x := by
  cases x <;> simp [jsAdd]

theorem dashboardRevenue_drop (pre post : List Booking) (b : Booking)
    (hb : b.status = .str "Confirmed") :
    dashboardRevenue (pre ++ b :: post).reverse
      = jsAdd (dashboardRevenue (pre ++ post).reverse) (priceOrZero b.totalPrice) := by
  induction pre with
  | nil => simp only [List.nil_append, dashboardRevenue_reverse_cons, hb, if_true]
  | cons c cs ih =>
    simp only [List.cons_append, dashboardRevenue_reverse_cons, ih]
    split_ifs
    · exact jsAdd_right_comm _ _ _
    · rfl

/-- Claim C30. For every store: a missing (or null, or NaN) totalPrice counts
0 and a numeric one counts itself; the dashboard revenue is the sum of
`(totalPrice || 0)` over exactly the Confirmed bookings (the same figure as on
the revenue-details page) and the pending count is the number of Pending
bookings. Turning a Pending booking into Confirmed adds its totalPrice to the
revenue and lowers the pending count by one; a Cancelled booking adds to
neither figure, and a Confirmed booking without totalPrice adds 0. -/
theorem dashboard_revenue_and_pending (fs : FS) (q : Option String) :
    (priceOrZero .undefined = some 0 ∧ priceOrZero .null = some 0 ∧
      priceOrZero (.num none) = some 0 ∧ ∀ p : ℚ, priceOrZero (.num (some p)) = some p) ∧
    (adminSettings fs q).revenue
      = ((getBookings fs).filter (fun x => decide (x.status = .str "Confirmed"))).foldr
          (fun x sum => jsAdd sum (priceOrZero x.totalPrice)) (some 0) ∧
    ((∀ x ∈ getBookings fs, x.status = .str "Confirmed" →
        (∃ p, x.totalPrice = .num p) ∨ x.totalPrice = .undefined ∨ x.totalPrice = .null) →
      (adminSettings fs q).revenue
        = some (((getBookings fs).filter
            (fun x => decide (x.status = .str "Confirmed"))).map
            (fun x => match x.totalPrice with
              | .num (some p) => p
              | _ => 0)).sum) ∧
    (revenueDetails fs).2 = (adminSettings fs q).revenue ∧
    (adminSettings fs q).pendingCount
      = ((getBookings fs).filter (fun x => decide (x.status = .str "Pending"))).length ∧
    (∀ (fs2 : FS) (pre post : List Booking) (b : Booking),
      getBookings fs = pre ++ b :: post →
      getBookings fs2 = pre ++ { b with status := .str "Confirmed" } :: post →
      b.status = .str "Pending" →
      (adminSettings fs2 q).revenue
        = jsAdd (adminSettings fs q).revenue (priceOrZero b.totalPrice) ∧
      (∀ r p : ℚ, (adminSettings fs q).revenue = some r → b.totalPrice = .num (some p) →
        (adminSettings fs2 q).revenue = some (r + p)) ∧
      (adminSettings fs2 q).pendingCount + 1 = (adminSettings fs q).pendingCount) ∧
    (∀ (l r : List Booking) (c : Booking), getBookings fs = l ++ c :: r →
      c.status = .str "Cancelled" →
      (adminSettings fs q).revenue = dashboardRevenue (l ++ r).reverse ∧
      (adminSettings fs q).pendingCount = pendingCount (l ++ r).reverse) ∧
    (∀ (l r : List Booking) (c : Booking), getBookings fs = l ++ c :: r →
      c.status = .str "Confirmed" →
      (c.totalPrice = .undefined ∨ c.totalPrice = .null) →
      (adminSettings fs q).revenue = dashboardRevenue (l ++ r).reverse) := by
  have hrev : ∀ f : FS, (adminSettings f q).revenue = dashboardRevenue (getBookings f).reverse :=
    fun _ => rfl
  have hpc : ∀ f : FS, (adminSettings f q).pendingCount = pendingCount (getBookings f).reverse :=
    fun _ => rfl
  refine ⟨⟨priceOrZero_missing.1, priceOrZero_missing.2.1, priceOrZero_missing.2.2,
    priceOrZero_num⟩, ?_, ?_, revenueDetails_eq_dashboard fs q, ?_, ?_, ?_, ?_⟩
  · rw [hrev]; exact dashboardRevenue_filter _
  · intro hnum
    rw [hrev]
    apply dashboardRevenue_numeric
    intro x hx hconf
    rcases hnum x hx hconf with ⟨p, hp⟩ | hp | hp
    · cases p with
      | none => rw [hp]; exact priceOrZero_missing.2.2
      | some p => rw [hp]; exact priceOrZero_num p
    · rw [hp]; exact priceOrZero_missing.1
    · rw [hp]; exact priceOrZero_missing.2.1
  · rw [hpc]; exact pendingCount_reverse _
  · intro fs2 pre post b h1 h2 hb
    have hstep : (adminSettings fs2 q).revenue
        = jsAdd (adminSettings fs q).revenue (priceOrZero b.totalPrice) := by
      rw [hrev, hrev, h1, h2]
      exact dashboardRevenue_confirm pre post b hb
    refine ⟨hstep, ?_, ?_⟩
    · intro r p hr hp
      rw [hstep, hr, hp, priceOrZero_num]
      rfl
    · rw [hpc, hpc, pendingCount_reverse, pendingCount_reverse, h1, h2]
      simp [List.filter_append, List.filter_cons, hb]
      omega
  · intro l r c hl hc
    constructor
    · rw [hrev, hl]
      exact dashboardRevenue_skip l r c (by rw [hc]; decide)
    · rw [hpc, hl, pendingCount_reverse, pendingCount_reverse]
      simp [List.filter_append, List.filter_cons, hc]
  · intro l r c hl hc hmiss
    rw [hrev, hl, dashboardRevenue_drop l r c hc]
    rcases hmiss with h | h
    · rw [h, priceOrZero_missing.1, jsAdd_zero]
    · rw [h, priceOrZero_missing.2.1, jsAdd_zero]

/-- Witness of C30: the booking of `meera` (total 9000) goes from Pending to
Confirmed and the revenue goes from 0 to 9000. -/
theorem dashboard_revenue_and_pending_witness :
    (adminSettings (twoBookingFS "Pending") none).revenue = some 0 ∧
    (adminSettings (twoBookingFS "Confirmed") none).revenue = some 9000 ∧
    (adminSettings (twoBookingFS "Confirmed") none).pendingCount + 1
      = (adminSettings (twoBookingFS "Pending") none).pendingCount := by
  have h := (dashboard_revenue_and_pending (twoBookingFS "Pending") none).2.2.2.2.2.1
    (twoBookingFS "Confirmed")
    [newBooking (quietEnv 1690000000000)
      (simpleRequest "Ravi" "2024-02-01" "2024-02-02" "Deluxe" false false false) (some 5000)]
    [] (meera "Pending") rfl rfl rfl
  have h0 : (adminSettings (twoBookingFS "Pending") none).revenue = some 0 := by decide!
  refine ⟨h0, ?_, h.2.2⟩
  have := h.2.1 0 9000 h0 rfl
  simpa using this

/-! ## The client's price and the server's price -/

theorem clientNights_some (s e : ℚ) :
    mathMax (some 0) (mathCeil (jsDiv (jsSub (some e) (some s)) (some (1000 * 60 * 60 * 24))))
      = some ((max 0 ⌈(e - s) / 86400000⌉ : ℤ) : ℚ) := by
  have h : ((1000 : ℚ) * 60 * 60 * 24) = 86400000 := by norm_num
  simp [jsSub, jsDiv, mathCeil, mathMax, h]

theorem ceil_days_pos (s e : ℤ) (h : s < e) : 1 ≤ ⌈((e : ℚ) - s) / 86400000⌉ := by
  have hpos : (0 : ℚ) < ((e : ℚ) - s) / 86400000 := by
    apply div_pos
    · exact sub_pos.mpr (by exact_mod_cast h)
    · norm_num
  exact Int.one_le_ceil_iff.mpr hpos

theorem ceil_days_nonpos (s e : ℤ) (h : e ≤ s) : ⌈((e : ℚ) - s) / 86400000⌉ ≤ 0 := by
  rw [Int.ceil_le]
  have h0 : ((e : ℚ) - s) ≤ 0 := sub_nonpos.mpr (by exact_mod_cast h)
  have := div_nonpos_of_nonpos_of_nonneg h0 (by norm_num : (0 : ℚ) ≤ 86400000)
  simpa using this

/-- Claim C27. For a room price `p` (a natural number) used by both sides, valid
dates and the same three flags: when check-out is later than check-in, the
rounded total of the client's `calculatePrice` is the server's stored
totalPrice; when check-out is not later than check-in the client computes 0
nights and the server 1 night. -/
theorem client_price_matches_server (env : Env) (types : List RoomType) (body : BookRequest)
    (t : RoomType) (p : ℕ) (s e : ℤ) (breakfast pickup isDirect : Bool)
    (ht : selectedType types body.roomType = some t) (hp : t.price = (p : ℚ))
    (hs : newDate env body.checkIn = some (s : ℚ))
    (he : newDate env body.checkOut = some (e : ℚ))
    (hci : body.checkIn.truthy = true) (hco : body.checkOut.truthy = true)
    (hb : body.breakfast = .bool breakfast) (hk : body.pickup = .bool pickup)
    (hd : body.isDirectBooking = .bool isDirect) :
    (s < e → ∃ q : PriceQuote,
      calculatePrice env body.checkIn body.checkOut true p isDirect pickup breakfast = some q ∧
      q.nights = nights (newDate env body.checkIn) (newDate env body.checkOut) ∧
      mathRound q.total = totalPrice env types body) ∧
    (e ≤ s → ∃ q : PriceQuote,
      calculatePrice env body.checkIn body.checkOut true p isDirect pickup breakfast = some q ∧
      q.nights = some 0 ∧
      nights (newDate env body.checkIn) (newDate env body.checkOut) = some 1) := by
  constructor
  · intro hlt
    have hc := ceil_days_pos s e hlt
    have hn : nights (newDate env body.checkIn) (newDate env body.checkOut)
        = some ((⌈((e : ℚ) - s) / 86400000⌉ : ℤ) : ℚ) := by
      rw [hs, he, nights_some, max_eq_right hc]
    have hcn : mathMax (some 0) (mathCeil (jsDiv (jsSub (newDate env body.checkOut)
          (newDate env body.checkIn)) (some (1000 * 60 * 60 * 24))))
        = some ((⌈((e : ℚ) - s) / 86400000⌉ : ℤ) : ℚ) := by
      rw [hs, he, clientNights_some, max_eq_right (by omega)]
    refine ⟨_, by simp only [calculatePrice, hci, hco]; rfl, ?_, ?_⟩
    · simp only [hcn, hn]
    · rw [totalPrice_matched env types body t _ ht hn, hp, hb, hk, hd]
      simp only [hcn, JsVal.truthy]
      cases isDirect <;> cases pickup <;> cases breakfast <;>
        simp only [jsMul, jsSub, jsAdd, if_true, if_false, Bool.false_eq_true] <;>
        congr 2 <;> ring
  · intro hle
    have hc := ceil_days_nonpos s e hle
    have hn : nights (newDate env body.checkIn) (newDate env body.checkOut) = some 1 := by
      rw [hs, he, nights_some, max_eq_left (by omega)]
      simp
    have hcn : mathMax (some 0) (mathCeil (jsDiv (jsSub (newDate env body.checkOut)
          (newDate env body.checkIn)) (some (1000 * 60 * 60 * 24)))) = some 0 := by
      rw [hs, he, clientNights_some, max_eq_left hc]
      simp
    refine ⟨_, by simp only [calculatePrice, hci, hco]; rfl, ?_, hn⟩
    simp only [hcn]

/-- Witness of C27: the Deluxe scenario, where client and server both arrive at
9000. -/
theorem client_price_matches_server_witness :
    ∃ q : PriceQuote,
      calculatePrice (quietEnv 0) (.str "2024-03-01") (.str "2024-03-03") true 5000
        true false true = some q ∧
      mathRound q.total = totalPrice (quietEnv 0) [{ name := "Deluxe", price := 5000 }]
        (simpleRequest "Asha" "2024-03-01" "2024-03-03" "Deluxe" true false true) := by
  obtain ⟨q, h1, _, h3⟩ := (client_price_matches_server (quietEnv 0)
    [{ name := "Deluxe", price := 5000 }]
    (simpleRequest "Asha" "2024-03-01" "2024-03-03" "Deluxe" true false true)
    { name := "Deluxe", price := 5000 } 5000 1709251200000 1709424000000 true false true
    (by decide!) (by decide!) (by decide!) (by decide!) (by decide) (by decide)
    rfl rfl rfl).1 (by decide)
  exact ⟨q, h1, h3⟩

/-! ## Room availability -/

theorem countFloorRooms_le (type : TypeRooms) (floor : Floor) (rooms : List String) :
    ∀ acc : Nat × Nat, acc.2 ≤ acc.1 →
      (countFloorRooms type floor acc rooms).2 ≤ (countFloorRooms type floor acc rooms).1 := by
  induction rooms with
  | nil => intro acc h; exact h
  | cons r rs ih =>
    intro acc h
    simp only [countFloorRooms]
    split_ifs
    · exact ih _ (by simp; omega)
    · exact ih _ (by simp; omega)
    · exact ih _ h

theorem countRooms_le (type : TypeRooms) (floors : List Floor) :
    ∀ acc : Nat × Nat, acc.2 ≤ acc.1 →
      (countRooms type acc floors).2 ≤ (countRooms type acc floors).1 := by
  induction floors with
  | nil => intro acc h; exact h
  | cons f fs ih =>
    intro acc h
    simp only [countRooms]
    split
    · exact ih _ (countFloorRooms_le type f _ acc h)
    · exact ih _ h

/-- Claim C28, the code at the failing input. A room type whose only assigned
room, `101`, is Occupied is reported with `availableCount = 3` and
`totalCount = 1`: the count of available rooms (0, never above the count of
assigned rooms) is replaced by the fallback 3 while the total stays 1. -/
theorem occupied_room_reports_three_of_one :
    getRoomsWithAvailability [{ name := "Deluxe", assignedRooms := some ["101"] }]
        [{ rooms := some ["101"], roomStatuses := some [("101", "Occupied")] }]
      = [{ type := { name := "Deluxe", assignedRooms := some ["101"] }
           available := true, availableCount := 3, totalCount := 1 }] ∧
    countRooms { name := "Deluxe", assignedRooms := some ["101"] } (0, 0)
        [{ rooms := some ["101"], roomStatuses := some [("101", "Occupied")] }] = (1, 0) ∧
    (getRoomsWithAvailability [{ name := "Deluxe", assignedRooms := some ["101"] }]
        [{ rooms := some ["101"], roomStatuses := some [("101", "Occupied")] }]).all
      (fun r => decide (r.totalCount < r.availableCount)) = true := by
  decide!

/-- Claim C29. `getRoomsWithAvailability` returns one entry per room type, in
order, and every entry has `available = true` and `availableCount ≥ 1`; an
entry whose type has no assigned room counted as Available (all Occupied or
under Maintenance, or none assigned) has `availableCount = 3`. -/
theorem every_room_type_available (types : List TypeRooms) (floors : List Floor) :
    (getRoomsWithAvailability types floors).map (fun r => r.type) = types ∧
    (∀ r ∈ getRoomsWithAvailability types floors,
      r.available = true ∧ 1 ≤ r.availableCount ∧
      ((countRooms r.type (0, 0) floors).2 = 0 → r.availableCount = 3)) := by
  constructor
  · simp [getRoomsWithAvailability, Function.comp_def]
  · intro r hr
    simp only [getRoomsWithAvailability, List.mem_map] at hr
    obtain ⟨t, _, rfl⟩ := hr
    have hA : 1 ≤ (if (countRooms t (0, 0) floors).2 = 0 then 3
        else (countRooms t (0, 0) floors).2) := by
      split_ifs <;> omega
    exact ⟨decide_eq_true hA, hA, fun h0 => if_pos h0⟩

/-! ## Overbooking prevention in the channel manager -/

theorem allocated_setAllocated (inv : Inventory) (c c1 : Channel) (x : ChannelCounters) :
    (inv.setAllocated c x).allocated c1 = if c1 = c then x else inv.allocated c1 := by
  cases c <;> cases c1 <;> simp [Inventory.setAllocated, Inventory.allocated]

theorem processChannelBooking_noRooms (inv : Inventory) (channelId : String) (totalPrice : JsNum)
    (now : Int)
    (h : ∀ c, activeChannel channelId = some c → getAvailableRooms inv c ≤ 0) :
    (processChannelBooking inv channelId totalPrice now).1 = inv ∧
    (processChannelBooking inv channelId totalPrice now).2.isSuccess = false := by
  cases hc : activeChannel channelId with
  | none => simp [processChannelBooking, hc, ChannelResult.isSuccess]
  | some c =>
    have := h c hc
    simp [processChannelBooking, hc, this, ChannelResult.isSuccess]

theorem processChannelBooking_keeps (inv : Inventory) (channelId : String) (totalPrice : JsNum)
    (now : Int) :
    (processChannelBooking inv channelId totalPrice now).1.totalRooms = inv.totalRooms ∧
    (∀ c, ((processChannelBooking inv channelId totalPrice now).1.allocated c).rooms
      = (inv.allocated c).rooms) ∧
    ((∀ c, (inv.allocated c).bookings ≤ (inv.allocated c).rooms) →
      ∀ c, ((processChannelBooking inv channelId totalPrice now).1.allocated c).bookings
        ≤ ((processChannelBooking inv channelId totalPrice now).1.allocated c).rooms) := by
  cases hc : activeChannel channelId with
  | none =>
    have hres : (processChannelBooking inv channelId totalPrice now).1 = inv := by
      simp [processChannelBooking, hc]
    rw [hres]
    exact ⟨rfl, fun _ => rfl, fun h => h⟩
  | some c =>
    by_cases hav : getAvailableRooms inv c ≤ 0
    · have hres : (processChannelBooking inv channelId totalPrice now).1 = inv := by
        simp [processChannelBooking, hc, hav]
      rw [hres]
      exact ⟨rfl, fun _ => rfl, fun h => h⟩
    · have hres : (processChannelBooking inv channelId totalPrice now).1
          = Inventory.setAllocated
              { inv with bookings := inv.bookings ++
                [{ id := now, channel := c, grossRevenue := totalPrice
                   commission := mathRound (jsMul totalPrice (some c.commission))
                   netRevenue := mathRound
                    (jsSub totalPrice (jsMul totalPrice (some c.commission))) }] }
              c { inv.allocated c with
                    bookings := (inv.allocated c).bookings + 1
                    revenue := jsAdd (inv.allocated c).revenue
                      (jsSub totalPrice (jsMul totalPrice (some c.commission))) } := by
        simp only [processChannelBooking, hc, hav, if_false]
      rw [hres]
      have hroom : (inv.allocated c).bookings + 1 ≤ (inv.allocated c).rooms := by
        simp only [getAvailableRooms] at hav
        omega
      have hsame : ∀ c1, Inventory.allocated
          { inv with bookings := inv.bookings ++
            [{ id := now, channel := c, grossRevenue := totalPrice
               commission := mathRound (jsMul totalPrice (some c.commission))
               netRevenue := mathRound (jsSub totalPrice (jsMul totalPrice (some c.commission))) }] }
          c1 = inv.allocated c1 := by
        intro c1; cases c1 <;> rfl
      refine ⟨?_, ?_, ?_⟩
      · cases c <;> rfl
      · intro c1
        rw [allocated_setAllocated, hsame]
        split_ifs with h
        · rw [h]
        · rfl
      · intro hle c1
        rw [allocated_setAllocated, hsame]
        split_ifs with h
        · exact hroom
        · exact hle c1

theorem processAll_keeps (calls : List ChannelCall) :
    ∀ inv : Inventory,
      (processAll inv calls).totalRooms = inv.totalRooms ∧
      (∀ c, ((processAll inv calls).allocated c).rooms = (inv.allocated c).rooms) ∧
      ((∀ c, (inv.allocated c).bookings ≤ (inv.allocated c).rooms) →
        ∀ c, ((processAll inv calls).allocated c).bookings
          ≤ ((processAll inv calls).allocated c).rooms) := by
  induction calls with
  | nil => intro inv; exact ⟨rfl, fun _ => rfl, fun h => h⟩
  | cons call rest ih =>
    intro inv
    obtain ⟨h1, h2, h3⟩ := processChannelBooking_keeps inv call.channelId call.totalPrice call.now
    obtain ⟨i1, i2, i3⟩ :=
      ih (processChannelBooking inv call.channelId call.totalPrice call.now).1
    simp only [processAll]
    exact ⟨i1.trans h1, fun c => (i2 c).trans (h2 c), fun h => i3 (h3 h)⟩

theorem totalAllocated_eq (inv : Inventory) :
    totalAllocated inv
      = (inv.allocated .direct).rooms + (inv.allocated .bookingcom).rooms
        + (inv.allocated .makemytrip).rooms + (inv.allocated .airbnb).rooms
        + (inv.allocated .goibibo).rooms + (inv.allocated .agoda).rooms := rfl

/-- Claim C23. After any sequence of `processChannelBooking` calls from the
initial allocation, every channel's booked count is at most its allocated
rooms, the allocated rooms sum to 19, at most `totalRooms = 20`, so
`checkOverbooking` raises neither the overallocation nor an overbooking alert;
and a call on a channel with no rooms left (or on an unknown channel) returns
`success = false` and leaves the whole inventory, counters and booking list,
unchanged. -/
theorem no_overbooking (calls : List ChannelCall) :
    (∀ c, ((processAll initialInventory calls).allocated c).bookings
      ≤ ((processAll initialInventory calls).allocated c).rooms) ∧
    (processAll initialInventory calls).totalRooms = 20 ∧
    totalAllocated (processAll initialInventory calls) = 19 ∧
    totalAllocated (processAll initialInventory calls)
      ≤ (processAll initialInventory calls).totalRooms ∧
    overallocated (processAll initialInventory calls) = false ∧
    (∀ c, overbooked (processAll initialInventory calls) c = false) ∧
    (∀ (channelId : String) (totalPrice : JsNum) (now : Int),
      (∀ c, activeChannel channelId = some c →
        getAvailableRooms (processAll initialInventory calls) c ≤ 0) →
      (processChannelBooking (processAll initialInventory calls) channelId totalPrice now).1
        = processAll initialInventory calls ∧
      (processChannelBooking (processAll initialInventory calls) channelId totalPrice now).2.isSuccess
        = false) := by
  obtain ⟨h1, h2, h3⟩ := processAll_keeps calls initialInventory
  have hinit : ∀ c, (initialInventory.allocated c).bookings
      ≤ (initialInventory.allocated c).rooms := by
    intro c; cases c <;> decide!
  have hle := h3 hinit
  have htot : (processAll initialInventory calls).totalRooms = 20 := h1
  have hsum : totalAllocated (processAll initialInventory calls) = 19 := by
    rw [totalAllocated_eq, h2, h2, h2, h2, h2, h2]
    decide!
  refine ⟨hle, htot, hsum, by rw [hsum, htot]; decide, ?_, ?_, ?_⟩
  · simp only [overallocated, hsum, htot]
    decide
  · intro c
    simp only [overbooked, decide_eq_false_iff_not, not_lt]
    exact hle c
  · intro channelId totalPrice now h
    exact processChannelBooking_noRooms _ channelId totalPrice now h

end AuraInn
